import Mathlib

/-!
# Formal model of the aria-runtime core

A shallow embedding, in Lean 4, of the core subsystems of the `aria`
agent runtime: the session finite state machine (`aria/kernel/fsm.py`),
the per-provider circuit breaker
(`aria/models/providers/circuit_breaker.py`), the model router
(`aria/models/router.py`), the hash-chained audit store
(`aria/memory/sqlite.py`), the tool sandbox (`aria/tools/sandbox.py`),
and the agent kernel (`aria/kernel/kernel.py`).

Modelling conventions:

* Python exceptions become `Except` values; the constructors of the
  error types below are named after the exception classes of
  `aria/models/errors.py`.  Exception message strings are elided where
  no property depends on them.
* Ambient effects are passed explicitly: `time.monotonic()` becomes a
  `now : ℚ` argument (or a stream of clock readings),
  `random.uniform(0, 1)` a `jitter` stream, `Path.resolve` an abstract
  `resolve : String → Option String` (`none` = the `OSError`/`ValueError`
  branch), and `hashlib.sha256(...).hexdigest()` an abstract hash
  function `H : String → String`.
* Floats (`cost_usd`, seconds) are modelled as exact rationals; the
  decimal rounding `round(x, 6)` is modelled by `round6` (float
  representation error and the tie-breaking rule are not modelled; no
  property below depends on ties).
* SQLite I/O failures are modelled as boolean failure streams indexed
  by the call count of each operation; a failing write raises
  `AuditWriteFailureError`, a failing read raises
  `MemoryCorruptionError`, exactly as in `aria/memory/sqlite.py`.
-/

namespace Aria

/-! ## Session status and FSM (`aria/models/types.py`, `aria/kernel/fsm.py`) -/

/-- `SessionStatus` enum. -/
inductive SessionStatus where
  | IDLE
  | RUNNING
  | WAITING
  | DONE
  | FAILED
  | CANCELLED
deriving DecidableEq, Repr

/-- The `_VALID` transition table of `aria/kernel/fsm.py`. -/
def validTargets : SessionStatus → List SessionStatus
  | .IDLE => [.RUNNING, .CANCELLED]
  | .RUNNING => [.WAITING, .DONE, .FAILED, .CANCELLED]
  | .WAITING => [.RUNNING, .FAILED, .CANCELLED]
  | .DONE => []
  | .FAILED => []
  | .CANCELLED => []

/-- `SessionFSM.is_terminal`. -/
def SessionStatus.isTerminal : SessionStatus → Bool
  | .DONE | .FAILED | .CANCELLED => true
  | _ => false

/-- `SessionFSM`: current state plus transition history (session id elided). -/
structure SessionFSM where
  state : SessionStatus
  history : List (SessionStatus × SessionStatus)
deriving DecidableEq, Repr

/-- `SessionFSM.__init__`: initial state `IDLE`, empty history. -/
def SessionFSM.init : SessionFSM := { state := .IDLE, history := [] }

/-- The data carried by `InvalidStateTransitionError(from_state, to_state)`. -/
structure InvalidTransition where
  src : SessionStatus
  tgt : SessionStatus
deriving DecidableEq, Repr

/-- `SessionFSM.transition`: succeed and move to `t` when the table allows it,
otherwise raise `InvalidStateTransition(from, to)`.  The Python method raises
before mutating `self`, so on error the caller's FSM is unchanged (the error
result here carries no new FSM). -/
def SessionFSM.transition (f : SessionFSM) (t : SessionStatus) :
    Except InvalidTransition SessionFSM :=
  if t ∈ validTargets f.state then
    .ok { state := t, history := f.history ++ [(f.state, t)] }
  else
    .error { src := f.state, tgt := t }

/-- The legal-transition table exactly as the specification (§4.1) lists it;
used to compare the code's `_VALID` table against the spec. -/
def specTransitionTable : List (SessionStatus × SessionStatus) :=
  [(.IDLE, .RUNNING), (.IDLE, .CANCELLED),
   (.RUNNING, .WAITING), (.RUNNING, .DONE), (.RUNNING, .FAILED), (.RUNNING, .CANCELLED),
   (.WAITING, .RUNNING), (.WAITING, .FAILED), (.WAITING, .CANCELLED)]

/-! ## Circuit breaker (`aria/models/providers/circuit_breaker.py`) -/

/-- `CBState` enum. -/
inductive CBState where
  | CLOSED
  | OPEN
  | HALF_OPEN
deriving DecidableEq, Repr

/-- `CircuitBreaker` instance state.  `threshold`, `window`, `recovery` are
the constructor parameters `failure_threshold`, `window_seconds`,
`recovery_seconds`; `failures` is the `_failures` timestamp list and
`openedAt` is `_opened_at`. -/
structure CircuitBreaker where
  provider : String
  threshold : Nat
  window : ℚ
  recovery : ℚ
  state : CBState
  failures : List ℚ
  openedAt : Option ℚ
deriving DecidableEq, Repr

/-- `CircuitBreaker.__init__`: starts CLOSED with no failures. -/
def CircuitBreaker.fresh (provider : String) (threshold : Nat)
    (window recovery : ℚ) : CircuitBreaker :=
  { provider := provider, threshold := threshold, window := window,
    recovery := recovery, state := .CLOSED, failures := [], openedAt := none }

/-- The `state` property: if OPEN and the recovery period has elapsed, lazily
transition to HALF_OPEN.  Returns the observed state together with the
(possibly mutated) breaker; `now` stands for `time.monotonic()`. -/
def CircuitBreaker.stateAt (cb : CircuitBreaker) (now : ℚ) :
    CBState × CircuitBreaker :=
  match cb.state, cb.openedAt with
  | .OPEN, some t =>
      if cb.recovery ≤ now - t then (.HALF_OPEN, { cb with state := .HALF_OPEN })
      else (.OPEN, cb)
  | _, _ => (cb.state, cb)

/-- `allow_request`: raise `CircuitBreakerOpen(provider)` when the observed
state is OPEN; the error value carries the provider name. -/
def CircuitBreaker.allowRequest (cb : CircuitBreaker) (now : ℚ) :
    Except String CircuitBreaker :=
  let sc := cb.stateAt now
  if sc.1 = .OPEN then .error cb.provider else .ok sc.2

/-- `record_success`: clear the failure window; if HALF_OPEN, return to CLOSED
and clear `_opened_at`. -/
def CircuitBreaker.recordSuccess (cb : CircuitBreaker) : CircuitBreaker :=
  let cb' := { cb with failures := [] }
  if cb'.state = .HALF_OPEN then
    { cb' with state := .CLOSED, openedAt := none }
  else cb'

/-- `record_failure`: in HALF_OPEN go straight back to OPEN with
`_opened_at = now`; otherwise evict window-expired timestamps, append `now`,
and open (clearing the window) once the threshold is reached. -/
def CircuitBreaker.recordFailure (cb : CircuitBreaker) (now : ℚ) : CircuitBreaker :=
  if cb.state = .HALF_OPEN then
    { cb with openedAt := some now, state := .OPEN }
  else
    let kept := cb.failures.filter (fun t => now - t < cb.window)
    let fs := kept ++ [now]
    if cb.threshold ≤ fs.length then
      { cb with state := .OPEN, openedAt := some now, failures := [] }
    else
      { cb with failures := fs }

/-! ## Model router (`aria/models/router.py`) -/

/-- `_MAX_RETRIES`. -/
def maxRetries : Nat := 3
/-- `_BASE_BACKOFF` (seconds). -/
def baseBackoff : ℚ := 2
/-- `_MAX_BACKOFF` (seconds). -/
def maxBackoff : ℚ := 30

/-- Exceptions a provider's `call` may raise (`aria/models/errors.py`).
The first three form the `_RETRYABLE` tuple. -/
inductive ProviderExc where
  | modelProviderError
  | modelRateLimit
  | modelTimeout
  | modelOutputValidation
deriving DecidableEq, Repr

/-- Membership in the `_RETRYABLE` tuple. -/
def ProviderExc.retryable : ProviderExc → Bool
  | .modelProviderError | .modelRateLimit | .modelTimeout => true
  | .modelOutputValidation => false

/-- Errors `ModelRouter.call` can raise to its caller.  `valueError` is the
builtin `ValueError` raised for an unregistered provider name (its message is
elided); the remaining constructors are `ARIAError` subclasses. -/
inductive RouterErr where
  | valueError
  | circuitBreakerOpen (provider : String)
  | modelOutputValidation
  | modelProviderExhausted (attempts : Nat) (last : Option ProviderExc)
deriving DecidableEq, Repr

/-- Whether an error raised by `ModelRouter.call` belongs to the `ARIAError`
hierarchy of `aria/models/errors.py`.  `ValueError` is a Python builtin and is
not an `ARIAError`; in particular the code base defines no `UnknownProvider`
error type at all. -/
def RouterErr.isARIAError : RouterErr → Bool
  | .valueError => false
  | _ => true

/-- Ambient inputs of one `ModelRouter.call`: the provider's response for each
attempt (1-based), the `random.uniform(0, 1)` draw used in the backoff of each
attempt, and a stream of `time.monotonic()` readings consumed by the breaker
interactions (reading `2*k` for the admission check of an attempt, reading
`2*k+1` for a failure recording). -/
structure RouterEnv (α : Type) where
  providerResp : Nat → Except ProviderExc α
  jitter : Nat → ℚ
  times : Nat → ℚ

/-- Observable outcome of `ModelRouter.call`: the returned response or raised
error, the final breaker state, the sequence of `time.sleep` durations, and
how many times `provider.call` was invoked. -/
structure RouterOut (α : Type) where
  result : Except RouterErr α
  breaker : CircuitBreaker
  sleeps : List ℚ
  providerCalls : Nat

/-- The `for attempt in range(1, _MAX_RETRIES + 1)` loop of
`ModelRouter.call`.  `remaining` counts the attempts left (the loop is entered
with `remaining = _MAX_RETRIES`, `attempt = 1`); when the loop ends without
returning, `ModelProviderExhausted(attempts=3)` wraps the last error. -/
def routerAttempts {α : Type} (env : RouterEnv α) :
    Nat → Nat → CircuitBreaker → Nat → List ℚ → Nat → Option ProviderExc →
    RouterOut α
  | 0, _, cb, _, sleeps, calls, lastErr =>
      { result := .error (.modelProviderExhausted maxRetries lastErr),
        breaker := cb, sleeps := sleeps, providerCalls := calls }
  | remaining + 1, attempt, cb, tIdx, sleeps, calls, _lastErr =>
      match cb.allowRequest (env.times tIdx) with
      | .error p =>
          { result := .error (.circuitBreakerOpen p), breaker := cb,
            sleeps := sleeps, providerCalls := calls }
      | .ok cb' =>
          match env.providerResp attempt with
          | .ok r =>
              { result := .ok r, breaker := cb'.recordSuccess,
                sleeps := sleeps, providerCalls := calls + 1 }
          | .error e =>
              let cb2 := cb'.recordFailure (env.times (tIdx + 1))
              if e.retryable then
                if attempt < maxRetries then
                  let d := min (baseBackoff * 2 ^ (attempt - 1) + env.jitter attempt)
                      maxBackoff
                  routerAttempts env remaining (attempt + 1) cb2 (tIdx + 2)
                    (sleeps ++ [d]) (calls + 1) (some e)
                else
                  routerAttempts env remaining (attempt + 1) cb2 (tIdx + 2)
                    sleeps (calls + 1) (some e)
              else
                { result := .error .modelOutputValidation, breaker := cb2,
                  sleeps := sleeps, providerCalls := calls + 1 }

/-- `ModelRouter.call`: look the provider up in `self._providers` (raising the
builtin `ValueError` when absent), then run the retry loop with the provider's
breaker `cb`. -/
def routerCall {α : Type} (registered : List String) (provider : String)
    (cb : CircuitBreaker) (env : RouterEnv α) : RouterOut α :=
  if provider ∈ registered then
    routerAttempts env maxRetries 1 cb 0 [] 0 none
  else
    { result := .error .valueError, breaker := cb, sleeps := [],
      providerCalls := 0 }

/-! ## Audit event hash chain (`aria/memory/sqlite.py`) -/

/-- The chain seed `"0" * 64`. -/
def chainSeed : String := String.mk (List.replicate 64 '0')

/-- One `audit_events` row, restricted to the columns `verify_chain` reads. -/
structure EventRow where
  payloadJson : String
  chainHash : String
deriving DecidableEq, Repr

/-- `_next_chain_hash` value: `sha256_str(prev + sha256_str(payload_json))`.
`H` abstracts `sha256_str` (SHA-256 hex digest of the UTF-8 encoding). -/
def nextChainHash (H : String → String) (prev payload : String) : String :=
  H (prev ++ H payload)

/-- The rows produced by a sequence of `write_event` calls for one session on
a fresh store, starting from in-memory previous hash `prev`: each write stores
`chain = H(prev ++ H(payload_json))` and advances `prev` to it. -/
def writeEventsChain (H : String → String) : String → List String → List EventRow
  | _, [] => []
  | prev, p :: ps =>
      let h := nextChainHash H prev p
      { payloadJson := p, chainHash := h } :: writeEventsChain H h ps

/-- Events written in order to one session, chain seeded with `chainSeed`. -/
def writeEvents (H : String → String) (payloads : List String) : List EventRow :=
  writeEventsChain H chainSeed payloads

/-- The recomputation loop of `verify_chain`: walk the rows in order,
recompute `H(prev ++ H(payload_json))`, compare with the stored hash, and
advance `prev` to the stored hash. -/
def verifyChainFrom (H : String → String) : String → List EventRow → Bool
  | _, [] => true
  | prev, r :: rs =>
      if nextChainHash H prev r.payloadJson = r.chainHash then
        verifyChainFrom H r.chainHash rs
      else false

/-- `SQLiteStorage.verify_chain`: load the session's rows in timestamp order
(an `sqlite3.Error` during the read yields `false`); an empty session is
trivially valid; otherwise recompute from the seed. -/
def verify_chain (H : String → String)
    (rowsOrErr : Except Unit (List EventRow)) : Bool :=
  match rowsOrErr with
  | .error _ => false
  | .ok rows => verifyChainFrom H chainSeed rows

/-- `rows` with the stored `payload_json` of row `i` overwritten by `p`
(an after-the-fact mutation of the stored column; the chain hashes stay). -/
def setPayload : List EventRow → Nat → String → List EventRow
  | [], _, _ => []
  | r :: rs, 0, p => { r with payloadJson := p } :: rs
  | r :: rs, n + 1, p => r :: setPayload rs n p

/-- The chaining invariant the specification states for stored rows: each
stored `chain_hash` equals `H(prev ∥ H(payload))` where `prev` is the previous
row's `chain_hash` (the seed for the first row). -/
def chainFromSpec (H : String → String) : String → List EventRow → Prop
  | _, [] => True
  | prev, r :: rs =>
      r.chainHash = nextChainHash H prev r.payloadJson ∧
        chainFromSpec H r.chainHash rs

/-! ## JSON values and Python truthiness -/

/-- JSON values as produced by `json.loads` (Python `None`/`bool`/`int`/
`float`/`str`/`list`/`dict`). -/
inductive JValue where
  | null
  | bool (b : Bool)
  | int (n : Int)
  | float (q : ℚ)
  | str (s : String)
  | arr (xs : List JValue)
  | obj (fs : List (String × JValue))

/-- Python truthiness of a JSON value (`if not payload.get("ok", False)`,
`payload.get("data") or ...`). -/
def JValue.truthy : JValue → Bool
  | .null => false
  | .bool b => b
  | .int n => n != 0
  | .float q => q != 0
  | .str s => s != ""
  | .arr xs => !xs.isEmpty
  | .obj fs => !fs.isEmpty

/-- `dict.get(k, d)` on an object's field list. -/
def jgetD (fs : List (String × JValue)) (k : String) (d : JValue) : JValue :=
  match fs.find? (fun kv => kv.1 == k) with
  | some kv => kv.2
  | none => d

/-- `type(data).__name__` as used in validation error messages. -/
def JValue.pyTypeName : JValue → String
  | .null => "NoneType"
  | .bool _ => "bool"
  | .int _ => "int"
  | .float _ => "float"
  | .str _ => "str"
  | .arr _ => "list"
  | .obj _ => "dict"

mutual

/-- A minimal rendering of `json.dumps` (string escaping elided; only the
kernel's tool-result message content uses it, and no verified property
inspects that content). -/
def jdump : JValue → String
  | .null => "null"
  | .bool true => "true"
  | .bool false => "false"
  | .int n => toString n
  | .float q => toString q
  | .str s => "\"" ++ s ++ "\""
  | .arr xs => "[" ++ jdumpList xs ++ "]"
  | .obj fs => "\x7b" ++ jdumpObj fs ++ "\x7d"

/-- Comma-joined renderings of an array's elements. -/
def jdumpList : List JValue → String
  | [] => ""
  | [v] => jdump v
  | v :: vs => jdump v ++ ", " ++ jdumpList vs

/-- Comma-joined renderings of an object's fields. -/
def jdumpObj : List (String × JValue) → String
  | [] => ""
  | [(k, v)] => "\"" ++ k ++ "\": " ++ jdump v
  | (k, v) :: kvs => "\"" ++ k ++ "\": " ++ jdump v ++ ", " ++ jdumpObj kvs

end

/-- Python `str()` of a JSON value, as interpolated into f-strings. -/
def JValue.pyStr : JValue → String
  | .str s => s
  | v => jdump v

/-! ## JSON-Schema subset and the sandbox (`aria/tools/sandbox.py`) -/

/-- The JSON-Schema subset understood by `_validate_schema`.  A Python schema
dict is represented structurally; absent keys carry the defaults the code
reads (`properties` → `[]`, `required` → `[]`, `additionalProperties` → true,
`minLength` → 0, `maxLength` → none = ∞, absent integer bounds → none).
`enum = []` covers both an absent `enum` and an empty one (the code guards
with `if enum and ...`, so both are skipped).  A schema whose `type` is none
of the five handled strings performs no checks (`untyped`). -/
inductive Schema where
  | object (props : List (String × Schema)) (required : List String) (additional : Bool)
  | string (minLength : Nat) (maxLength : Option Nat) (enum : List String)
  | integer (minimum : Option Int) (maximum : Option Int)
  | boolean
  | array
  | untyped

mutual

/-- `_validate_schema(data, schema, path)`: returns the list of error strings
(empty = valid).  Message texts follow the code's f-strings with numeric
details elided. -/
def validateSchema : Schema → JValue → String → List String
  | .object props required additional, data, path =>
      match data with
      | .obj fields =>
          let reqErrs := required.filterMap (fun k =>
            if (fields.find? (fun kv => kv.1 == k)).isNone then
              some (path ++ "." ++ k ++ ": required field missing")
            else none)
          let addlErrs :=
            if additional then []
            else fields.filterMap (fun kv =>
              if (props.find? (fun pr => pr.1 == kv.1)).isNone then
                some (path ++ "." ++ kv.1 ++ ": additional property not allowed")
              else none)
          reqErrs ++ addlErrs ++ validateProps props fields path
      | v => [path ++ ": expected object, got " ++ v.pyTypeName]
  | .string minL maxL enum, data, path =>
      match data with
      | .str s =>
          (if s.length < minL then [path ++ ": string too short"] else []) ++
          (match maxL with
           | some m => if m < s.length then [path ++ ": string too long"] else []
           | none => []) ++
          (if enum ≠ [] ∧ s ∉ enum then [path ++ ": value not in enum"] else [])
      | v => [path ++ ": expected string, got " ++ v.pyTypeName]
  | .integer lo hi, data, path =>
      match data with
      | .int n =>
          (match lo with
           | some m => if n < m then [path ++ ": below minimum"] else []
           | none => []) ++
          (match hi with
           | some m => if m < n then [path ++ ": above maximum"] else []
           | none => [])
      | v => [path ++ ": expected integer, got " ++ v.pyTypeName]
  | .boolean, data, path =>
      match data with
      | .bool _ => []
      | v => [path ++ ": expected boolean, got " ++ v.pyTypeName]
  | .array, data, path =>
      match data with
      | .arr _ => []
      | v => [path ++ ": expected array, got " ++ v.pyTypeName]
  | .untyped, _, _ => []

/-- The `for k, sub_schema in props.items()` loop of the object case. -/
def validateProps : List (String × Schema) → List (String × JValue) → String → List String
  | [], _, _ => []
  | (k, sub) :: rest, fields, path =>
      (match fields.find? (fun kv => kv.1 == k) with
       | some kv => validateSchema sub kv.2 (path ++ "." ++ k)
       | none => []) ++ validateProps rest fields path

end

/-- `ToolPermission` enum. -/
inductive ToolPermission where
  | NONE
  | FS_READ
  | FS_WRITE
  | NETWORK
  | SHELL
deriving DecidableEq, Repr

/-- `ToolManifest`, restricted to the fields consumed by the sandbox and the
kernel dispatch (`name`, `permissions`, limits, schemas, `allowed_paths`). -/
structure ToolManifest where
  name : String
  permissions : List ToolPermission
  timeoutSeconds : Nat
  maxMemoryMb : Nat
  inputSchema : Schema
  outputSchema : Schema
  allowedPaths : List String

/-- Exceptions `run_tool_sandboxed` can raise (messages elided).  `osError`
is the unguarded `Path(p).resolve()` on an allowed base propagating a raw
OS error; `attributeError` is `payload_out.get` on a non-dict JSON value. -/
inductive SandboxErr where
  | toolInputValidation (errs : List String)
  | pathTraversal
  | osError
  | toolTimeout
  | toolSandbox
  | toolOutputValidation (errs : List String)
  | attributeError

/-- `ToolResult` (`aria/models/types.py`).  `errorMessage` is a `JValue`
because `payload_out.get("error", "Unknown")` can yield any JSON value. -/
structure ToolResultM where
  ok : Bool
  toolName : String
  toolCallId : String
  data : Option JValue
  errorType : Option String
  errorMessage : Option JValue
  durationMs : Nat

/-- `validate_input`: raise `ToolInputValidation` when `_validate_schema`
reports errors. -/
def validate_input (arguments : List (String × JValue)) (m : ToolManifest) :
    Except SandboxErr Unit :=
  let errs := validateSchema m.inputSchema (.obj arguments) "input"
  if errs.isEmpty then .ok () else .error (.toolInputValidation errs)

/-- `validate_output`: raise `ToolOutputValidation` when `_validate_schema`
reports errors on the child's `data`. -/
def validate_output (data : JValue) (m : ToolManifest) : Except SandboxErr Unit :=
  let errs := validateSchema m.outputSchema data "output"
  if errs.isEmpty then .ok () else .error (.toolOutputValidation errs)

/-- Python `needle in s` on code points (`String.contains` over `s.data`). -/
def strContains (s : String) (c : Char) : Bool := s.data.contains c

/-- Python `s.startswith(pre)` on code points. -/
def strStartsWith (s pre : String) : Bool := pre.data.isPrefixOf s.data

/-- The skip test of `validate_paths.check`: a string value is examined only
when it contains `/` or starts with `.`. -/
def isPathArg (s : String) : Bool := strContains s '/' || strStartsWith s "."

/-- `resolved == base or str(resolved).startswith(str(base) + os.sep)` over
the resolved allowed bases. -/
def pathAllowed (resolved : String) (bases : List String) : Bool :=
  bases.any (fun base => resolved == base || strStartsWith resolved (base ++ "/"))

/-- The `check(value)` closure of `validate_paths`: non-strings and
non-path-like strings pass; a canonicalization failure (`resolve = none`,
the `except (OSError, ValueError)` branch) raises `PathTraversal`, as does a
resolved path under none of the allowed bases. -/
def checkPathValue (resolve : String → Option String) (bases : List String)
    (v : JValue) : Except SandboxErr Unit :=
  match v with
  | .str s =>
      if !isPathArg s then .ok ()
      else
        match resolve s with
        | none => .error .pathTraversal
        | some r => if pathAllowed r bases then .ok () else .error .pathTraversal
  | _ => .ok ()

/-- The `for v in arguments.values(): check(v)` loop. -/
def checkPathValues (resolve : String → Option String) (bases : List String) :
    List JValue → Except SandboxErr Unit
  | [] => .ok ()
  | v :: vs =>
      match checkPathValue resolve bases v with
      | .ok _ => checkPathValues resolve bases vs
      | .error e => .error e

/-- `validate_paths`: skipped entirely when `manifest.allowed_paths` is empty;
otherwise resolve every allowed base (an unresolvable base propagates the raw
OS error — that resolution is outside the `try` block) and check every
argument value. -/
def validate_paths (resolve : String → Option String)
    (arguments : List (String × JValue)) (m : ToolManifest) :
    Except SandboxErr Unit :=
  if m.allowedPaths.isEmpty then .ok ()
  else
    match m.allowedPaths.mapM resolve with
    | none => .error .osError
    | some bases => checkPathValues resolve bases (arguments.map Prod.snd)

/-- The child's standard output after `proc.stdout.strip()` and `json.loads`:
empty, malformed JSON, or a parsed JSON value. -/
inductive ChildStdout where
  | emptyOut
  | malformed
  | json (v : JValue)

/-- Outcome of the `subprocess.run` call: wall-clock timeout
(`subprocess.TimeoutExpired`) or an exited child with a return code and
parsed stdout (stderr elided — it only feeds an error message). -/
inductive ChildOutcome where
  | timeout
  | exited (returncode : Int) (stdout : ChildStdout)

/-- `run_tool_sandboxed(manifest, arguments, tool_module_path)`.
Returns the `ToolResult` or raised error, paired with a flag recording
whether the subprocess was spawned.  `resolve` abstracts `Path.resolve`;
`child` the subprocess behaviour; durations are elided (0). -/
def run_tool_sandboxed (resolve : String → Option String) (child : ChildOutcome)
    (m : ToolManifest) (arguments : List (String × JValue)) :
    Except SandboxErr ToolResultM × Bool :=
  match validate_input arguments m with
  | .error e => (.error e, false)
  | .ok _ =>
  match validate_paths resolve arguments m with
  | .error e => (.error e, false)
  | .ok _ =>
  -- `subprocess.run` spawns here
  match child with
  | .timeout => (.error .toolTimeout, true)
  | .exited rc out =>
      if rc ≠ 0 then (.error .toolSandbox, true)
      else
        match out with
        | .emptyOut => (.error .toolSandbox, true)
        | .malformed => (.error .toolSandbox, true)
        | .json v =>
            match v with
            | .obj fields =>
                if !(jgetD fields "ok" (.bool false)).truthy then
                  (.ok { ok := false, toolName := m.name, toolCallId := "",
                         data := none, errorType := some "ToolExecutionError",
                         errorMessage := some (jgetD fields "error" (.str "Unknown")),
                         durationMs := 0 }, true)
                else
                  let data :=
                    let x := jgetD fields "data" .null
                    if x.truthy then x else .obj []
                  match validate_output data m with
                  | .error e => (.error e, true)
                  | .ok _ =>
                      (.ok { ok := true, toolName := m.name, toolCallId := "",
                             data := some data, errorType := none,
                             errorMessage := none, durationMs := 0 }, true)
            | _ => (.error .attributeError, true)

/-! ## Agent kernel (`aria/kernel/kernel.py`)

The kernel is modelled over an explicit environment of external behaviours:
SQLite write/read failure streams (indexed by each operation's call count),
router and sandbox outcome streams, the tool registry's lookup functions, the
injection-scan verdict on the task, and the provider price table
(`_calculate_cost` for the session's fixed provider/model, as a function of
the token counts).  UUIDs, timestamps and hash strings are elided: no
verified property depends on them. -/

/-- Exceptions flowing through `AgentKernel.run`, named after the classes in
`aria/models/errors.py` plus the Python builtins the kernel can encounter. -/
inductive PyExc where
  | auditWriteFailure
  | memoryCorruption
  | stepLimitExceeded
  | costBudgetExceeded
  | unknownTool
  | permissionDenied
  | pathTraversal
  | securityOther
  | modelProviderExhausted
  | circuitBreakerOpen
  | modelOutputValidation
  | toolTimeout
  | toolSandbox
  | toolInputValidation
  | toolOutputValidation
  | invalidStateTransition
  | valueError
  | assertionError
  | promptInjectionWarning
  | otherException (name : String)
deriving DecidableEq, Repr

/-- `type(exc).__name__`. -/
def PyExc.pyName : PyExc → String
  | .auditWriteFailure => "AuditWriteFailureError"
  | .memoryCorruption => "MemoryCorruptionError"
  | .stepLimitExceeded => "StepLimitExceededError"
  | .costBudgetExceeded => "CostBudgetExceededError"
  | .unknownTool => "UnknownToolError"
  | .permissionDenied => "PermissionDeniedError"
  | .pathTraversal => "PathTraversalError"
  | .securityOther => "SecurityError"
  | .modelProviderExhausted => "ModelProviderExhaustedError"
  | .circuitBreakerOpen => "CircuitBreakerOpenError"
  | .modelOutputValidation => "ModelOutputValidationError"
  | .toolTimeout => "ToolTimeoutError"
  | .toolSandbox => "ToolSandboxError"
  | .toolInputValidation => "ToolInputValidationError"
  | .toolOutputValidation => "ToolOutputValidationError"
  | .invalidStateTransition => "InvalidStateTransitionError"
  | .valueError => "ValueError"
  | .assertionError => "AssertionError"
  | .promptInjectionWarning => "PromptInjectionWarning"
  | .otherException n => n

/-- Matches `except (StepLimitExceededError, CostBudgetExceededError,
LimitError)`: both named classes are `LimitError` subclasses and no other
`LimitError` subclass exists. -/
def PyExc.isLimitError : PyExc → Bool
  | .stepLimitExceeded | .costBudgetExceeded => true
  | _ => false

/-- Matches `except (SecurityError, PathTraversalError)`:
`PathTraversalError`, `PermissionDeniedError` and `UnknownToolError` are
`SecurityError` subclasses. -/
def PyExc.isSecurityError : PyExc → Bool
  | .securityOther | .pathTraversal | .permissionDenied | .unknownTool => true
  | _ => false

/-- Matches `except (ModelProviderExhaustedError, CircuitBreakerOpenError)`. -/
def PyExc.isProviderHandled : PyExc → Bool
  | .modelProviderExhausted | .circuitBreakerOpen => true
  | _ => false

/-- Matches the tuple caught inside `AgentKernel._execute_tool`:
`(ToolTimeoutError, ToolSandboxError, ToolInputValidationError,
PathTraversalError)`. -/
def PyExc.isToolHandled : PyExc → Bool
  | .toolTimeout | .toolSandbox | .toolInputValidation | .pathTraversal => true
  | _ => false

/-- `MessageRole` enum. -/
inductive MessageRole where
  | system
  | user
  | assistant
  | tool
deriving DecidableEq, Repr

/-- `Message` (`aria/models/types.py`). -/
structure MessageM where
  role : MessageRole
  content : String
  toolName : Option String
  toolCallId : Option String
deriving DecidableEq, Repr

/-- `StepType` enum. -/
inductive StepType where
  | modelCall
  | toolCall
  | finalAnswer
deriving DecidableEq, Repr

/-- `StepStatus` enum. -/
inductive StepStatus where
  | started
  | completed
  | failed
deriving DecidableEq, Repr

/-- One row of the `steps` table, restricted to the columns the verified
properties read.  `write_step_start` inserts the row; `write_step_end`
updates `status` and `cost_usd` (among columns not modelled) but not
`step_type`, so the inserted `step_type` persists. -/
structure StepRow where
  stepNumber : Nat
  stepType : StepType
  status : StepStatus
  costUsd : Option ℚ
deriving DecidableEq, Repr

/-- The `sessions` row for the session, restricted to the columns
`update_session_status` writes. -/
structure SessionRow where
  status : SessionStatus
  totalSteps : Nat
  totalCostUsd : ℚ
  errorType : Option String
  errorMsg : Option String
deriving DecidableEq, Repr

/-- The durable store as the kernel observes it for one session: the session
row (none before `create_session`), the conversation KV
(`conv_<session_id>`), the session's step rows in insertion order, and the
session's audit events in write order (event types only; payloads, ids and
timestamps elided — the event chain itself is modelled separately). -/
structure Store where
  sessionRow : Option SessionRow
  messages : List MessageM
  stepRows : List StepRow
  events : List String
deriving DecidableEq, Repr

/-- `ActionType` enum. -/
inductive ActionType where
  | toolCall
  | finalAnswer
deriving DecidableEq, Repr

/-- `ToolCallRequest`, restricted to the fields the kernel reads
(`arguments` are only forwarded to the sandbox, whose outcome the
environment provides). -/
structure ToolCallM where
  toolName : String
  toolCallId : String
deriving DecidableEq, Repr

/-- `RawModelResponse`, restricted to the fields the kernel reads. -/
structure ModelRespM where
  action : ActionType
  toolCall : Option ToolCallM
  finalAnswer : Option String
  inputTokens : Nat
  outputTokens : Nat
deriving DecidableEq, Repr

/-- Call counts of every external operation, used to index the environment's
behaviour streams. -/
structure Counters where
  eventWrites : Nat
  histReads : Nat
  kvWrites : Nat
  sessionUpdates : Nat
  stepStarts : Nat
  stepEnds : Nat
  routerCalls : Nat
  sandboxRuns : Nat
deriving DecidableEq, Repr

def Counters.zero : Counters := ⟨0, 0, 0, 0, 0, 0, 0, 0⟩

/-- External behaviour of one `AgentKernel.run`: `true` in a failure stream
means the n-th call of that SQLite operation hits an `sqlite3.Error`.
`routerResult`/`sandboxResult` give the n-th `ModelRouter.call` /
`run_tool_sandboxed` outcome.  `stepCost` is `_calculate_cost` for the
session's provider and model as a function of the response token counts.
`taskClean` is the injection-scan verdict on the task; `hasTool`/`toolPerms`
are the immutable registry's `has_tool` and `get_manifest(...).permissions`. -/
structure KernelEnv where
  createSessionFails : Bool
  eventWriteFails : Nat → Bool
  histReadFails : Nat → Bool
  kvWriteFails : Nat → Bool
  sessionUpdateFails : Nat → Bool
  stepStartFails : Nat → Bool
  stepEndFails : Nat → Bool
  routerResult : Nat → Except PyExc ModelRespM
  sandboxResult : Nat → Except PyExc ToolResultM
  stepCost : Nat → Nat → ℚ
  taskClean : Bool
  hasTool : String → Bool
  toolPerms : String → List ToolPermission

/-- `KernelConfig`, restricted to the fields the run loop reads. -/
structure KernelConfigM where
  maxSteps : Nat
  maxCostUsd : ℚ
  allowedPermissions : List ToolPermission
deriving DecidableEq, Repr

/-- The kernel's run-local state: the FSM, the `step_count` and `total_cost`
locals, the captured `final_answer`, the store, and the operation counters. -/
structure KSt where
  fsm : SessionFSM
  stepCount : Nat
  totalCost : ℚ
  answer : Option String
  store : Store
  cnt : Counters
deriving DecidableEq, Repr

/-- `SessionResult`, restricted to the fields the run constructs (session id
and duration elided). -/
structure SessionResultM where
  status : SessionStatus
  answer : Option String
  stepsTaken : Nat
  totalCostUsd : ℚ
  errorType : Option String
  errorMessage : Option String
deriving DecidableEq, Repr

/-- Python `round(x, 6)` as exact decimal rounding (float representation and
tie-breaking are not modelled; no verified property depends on ties). -/
def round6 (x : ℚ) : ℚ := (⌊x * 1000000 + 1 / 2⌋ : ℤ) / 1000000

/-- `AgentKernel._emit` → `write_event`: a failing insert raises
`AuditWriteFailure` (and `_emit` re-raises it); otherwise the event is
appended. -/
def emitOp (env : KernelEnv) (etype : String) (st : KSt) :
    Except (PyExc × KSt) KSt :=
  let n := st.cnt.eventWrites
  let st' := { st with cnt := { st.cnt with eventWrites := n + 1 } }
  if env.eventWriteFails n then .error (.auditWriteFailure, st')
  else .ok { st' with store := { st'.store with events := st'.store.events ++ [etype] } }

/-- `get_conversation_history` → `get_kv`: a failing read raises
`MemoryCorruption`; otherwise the stored conversation is returned. -/
def getHistoryOp (env : KernelEnv) (st : KSt) :
    Except (PyExc × KSt) (List MessageM × KSt) :=
  let n := st.cnt.histReads
  let st' := { st with cnt := { st.cnt with histReads := n + 1 } }
  if env.histReadFails n then .error (.memoryCorruption, st')
  else .ok (st'.store.messages, st')

/-- The `set_kv` write inside `append_message`: a failing write raises
`AuditWriteFailure`; otherwise the whole conversation value is replaced. -/
def setConvOp (env : KernelEnv) (msgs : List MessageM) (st : KSt) :
    Except (PyExc × KSt) KSt :=
  let n := st.cnt.kvWrites
  let st' := { st with cnt := { st.cnt with kvWrites := n + 1 } }
  if env.kvWriteFails n then .error (.auditWriteFailure, st')
  else .ok { st' with store := { st'.store with messages := msgs } }

/-- `append_message`: read the existing conversation, append, write back. -/
def appendMessageOp (env : KernelEnv) (msg : MessageM) (st : KSt) :
    Except (PyExc × KSt) KSt :=
  match getHistoryOp env st with
  | .error e => .error e
  | .ok (hist, st') => setConvOp env (hist ++ [msg]) st'

/-- `AgentKernel._sync_session` → `update_session_status`: a failing update
raises `AuditWriteFailure` (re-raised by `_sync_session`); otherwise the
session row's columns are overwritten, with the cost passed as
`round(cost, 6)`. -/
def syncSessionOp (env : KernelEnv) (fsm : SessionFSM) (steps : Nat) (cost : ℚ)
    (errT errM : Option String) (st : KSt) : Except (PyExc × KSt) KSt :=
  let n := st.cnt.sessionUpdates
  let st' := { st with cnt := { st.cnt with sessionUpdates := n + 1 } }
  if env.sessionUpdateFails n then .error (.auditWriteFailure, st')
  else
    let row' : Option SessionRow := st'.store.sessionRow.map (fun _ =>
      { status := fsm.state, totalSteps := steps, totalCostUsd := round6 cost,
        errorType := errT, errorMsg := errM })
    .ok { st' with store := { st'.store with sessionRow := row' } }

/-- `write_step_start`: insert a new step row (status `started`, no cost). -/
def writeStepStartOp (env : KernelEnv) (row : StepRow) (st : KSt) :
    Except (PyExc × KSt) KSt :=
  let n := st.cnt.stepStarts
  let st' := { st with cnt := { st.cnt with stepStarts := n + 1 } }
  if env.stepStartFails n then .error (.auditWriteFailure, st')
  else .ok { st' with store := { st'.store with stepRows := st'.store.stepRows ++ [row] } }

/-- `write_step_end`: `UPDATE steps SET status=?, cost_usd=?, ... WHERE
step_id=?`.  Within a session the step id determines the step number, which
is what rows carry here, so the update targets the row with the trace's
`step_number` (a no-op on all others). -/
def writeStepEndOp (env : KernelEnv) (stepNumber : Nat) (status : StepStatus)
    (cost : ℚ) (st : KSt) : Except (PyExc × KSt) KSt :=
  let n := st.cnt.stepEnds
  let st' := { st with cnt := { st.cnt with stepEnds := n + 1 } }
  if env.stepEndFails n then .error (.auditWriteFailure, st')
  else
    let rows' : List StepRow := st'.store.stepRows.map (fun r =>
      if r.stepNumber = stepNumber then { r with status := status, costUsd := some cost }
      else r)
    .ok { st' with store := { st'.store with stepRows := rows' } }

/-- One `ModelRouter.call` from the main loop; the environment supplies the
response or raised error. -/
def routerCallOp (env : KernelEnv) (st : KSt) :
    Except (PyExc × KSt) (ModelRespM × KSt) :=
  let n := st.cnt.routerCalls
  let st' := { st with cnt := { st.cnt with routerCalls := n + 1 } }
  match env.routerResult n with
  | .error e => .error (e, st')
  | .ok r => .ok (r, st')

/-- `SessionFSM.transition` as a kernel step: an illegal request raises
`InvalidStateTransition` (leaving the FSM unchanged). -/
def transitionOp (t : SessionStatus) (st : KSt) : Except (PyExc × KSt) KSt :=
  match st.fsm.transition t with
  | .ok f => .ok { st with fsm := f }
  | .error _ => .error (.invalidStateTransition, st)

/-- `AgentKernel._execute_tool`: emit `tool_call_start`, run the sandbox,
convert the four host-enforced tool errors into a `ToolResult(ok=false)`
after emitting `tool_call_failed` (any other exception — e.g.
`ToolOutputValidation` — propagates), and on success re-attach the
`tool_call_id` and emit `tool_call_end`. -/
def executeToolOp (env : KernelEnv) (tc : ToolCallM) (st : KSt) :
    Except (PyExc × KSt) (ToolResultM × KSt) :=
  match emitOp env "tool_call_start" st with
  | .error e => .error e
  | .ok st1 =>
    let n := st1.cnt.sandboxRuns
    let st2 := { st1 with cnt := { st1.cnt with sandboxRuns := n + 1 } }
    match env.sandboxResult n with
    | .ok r =>
        let r2 := { r with toolCallId := tc.toolCallId }
        match emitOp env "tool_call_end" st2 with
        | .error e => .error e
        | .ok st3 => .ok (r2, st3)
    | .error e =>
        if e.isToolHandled then
          match emitOp env "tool_call_failed" st2 with
          | .error e' => .error e'
          | .ok st3 =>
              .ok ({ ok := false, toolName := tc.toolName,
                     toolCallId := tc.toolCallId, data := none,
                     errorType := some e.pyName,
                     errorMessage := some (.str e.pyName), durationMs := 0 }, st3)
        else .error (e, st2)

/-- One iteration of the kernel main loop (`while not fsm.is_terminal`),
entered with the FSM not terminal: bump `step_count`, rebuild the execution
context (a conversation read), enforce the step and cost budgets, write the
step-start row, call the router, account the step cost, then branch on the
action. -/
def bodyStep (env : KernelEnv) (cfg : KernelConfigM) (st0 : KSt) :
    Except (PyExc × KSt) KSt :=
  let st := { st0 with stepCount := st0.stepCount + 1 }
  match getHistoryOp env st with
  | .error e => .error e
  | .ok (_hist, st) =>
  if cfg.maxSteps < st.stepCount then .error (.stepLimitExceeded, st)
  else if cfg.maxCostUsd < st.totalCost then .error (.costBudgetExceeded, st)
  else
  match writeStepStartOp env
      { stepNumber := st.stepCount, stepType := .modelCall,
        status := .started, costUsd := none } st with
  | .error e => .error e
  | .ok st =>
  match routerCallOp env st with
  | .error e => .error e
  | .ok (resp, st) =>
  let stepCost := env.stepCost resp.inputTokens resp.outputTokens
  let st := { st with totalCost := st.totalCost + stepCost }
  match resp.action with
  | .finalAnswer =>
      match writeStepEndOp env st.stepCount .completed stepCost st with
      | .error e => .error e
      | .ok st =>
      let st := { st with answer := some (resp.finalAnswer.getD "") }
      match appendMessageOp env
          { role := .assistant, content := resp.finalAnswer.getD "",
            toolName := none, toolCallId := none } st with
      | .error e => .error e
      | .ok st => transitionOp .DONE st
  | .toolCall =>
      match resp.toolCall with
      | none => .error (.assertionError, st)
      | some tc =>
      if !env.hasTool tc.toolName then .error (.unknownTool, st)
      else if !((env.toolPerms tc.toolName).all
          (fun p => p ∈ cfg.allowedPermissions)) then
        .error (.permissionDenied, st)
      else
      match writeStepEndOp env st.stepCount .completed stepCost st with
      | .error e => .error e
      | .ok st =>
      match appendMessageOp env
          { role := .assistant, content := "[Tool call: " ++ tc.toolName ++ "]",
            toolName := none, toolCallId := some tc.toolCallId } st with
      | .error e => .error e
      | .ok st =>
      match transitionOp .WAITING st with
      | .error e => .error e
      | .ok st =>
      match syncSessionOp env st.fsm st.stepCount st.totalCost none none st with
      | .error e => .error e
      | .ok st =>
      match executeToolOp env tc st with
      | .error e => .error e
      | .ok (tr, st) =>
      match transitionOp .RUNNING st with
      | .error e => .error e
      | .ok st =>
      match syncSessionOp env st.fsm st.stepCount st.totalCost none none st with
      | .error e => .error e
      | .ok st =>
      let content :=
        if tr.ok then jdump ((tr.data).getD .null)
        else "ERROR: " ++ ((tr.errorMessage).getD .null).pyStr
      appendMessageOp env
        { role := .tool, content := content, toolName := some tc.toolName,
          toolCallId := some tc.toolCallId } st

/-- The `while not fsm.is_terminal` loop.  The fuel argument is a recursion
bound only: the loop body raises `StepLimitExceeded` once
`step_count > max_steps`, so with fuel `max_steps + 1 - step_count` the
fuel-exhausted marker below is unreachable. -/
def kernelLoop (env : KernelEnv) (cfg : KernelConfigM) :
    Nat → KSt → KSt × Option PyExc
  | 0, st => (st, some (.otherException "loop fuel exhausted"))
  | fuel + 1, st =>
      if st.fsm.state.isTerminal then (st, none)
      else
        match bodyStep env cfg st with
        | .ok st' => kernelLoop env cfg fuel st'
        | .error (e, st') => (st', some e)

/-- `if not fsm.is_terminal: fsm.transition(FAILED)` as the handlers do. -/
def failTransition (st : KSt) : Except (PyExc × KSt) KSt :=
  if st.fsm.state.isTerminal then .ok st else transitionOp .FAILED st

/-- The teardown shared by all non-re-raising exits: emit `session_end`, sync
the session row with the error fields, and build the `SessionResult`.  An
`AuditWriteFailure` in either write propagates to the caller (both run after
the `try`/`except` block). -/
def teardown (env : KernelEnv) (st : KSt) (errT errM : Option String) :
    KSt × Except PyExc SessionResultM :=
  match emitOp env "session_end" st with
  | .error (e, st') => (st', .error e)
  | .ok st1 =>
    match syncSessionOp env st1.fsm st1.stepCount st1.totalCost errT errM st1 with
    | .error (e, st') => (st', .error e)
    | .ok st2 =>
        (st2, .ok { status := st2.fsm.state, answer := st2.answer,
                    stepsTaken := st2.stepCount,
                    totalCostUsd := round6 st2.totalCost,
                    errorType := errT, errorMessage := errM })

/-- Exception message strings, abbreviated to the class name (no verified
property reads them except the two literals handled in `finishRun`). -/
def excMessage (e : PyExc) : String := e.pyName

/-- The audit event type the handler cascade emits for a caught exception:
the first matching `except` clause decides it; everything not matched by the
three specific clauses lands in `except Exception` as `unexpected_error`. -/
def handledEventName (e : PyExc) : String :=
  if e.isLimitError then "limit_exceeded"
  else if e.isSecurityError then "security_error"
  else if e.isProviderHandled then "provider_failure"
  else "unexpected_error"

/-- The `error_msg` the handler records: `str(exc)` for the three specific
clauses, the sanitized text for `except Exception`. -/
def handledErrMsg (e : PyExc) : String :=
  if e.isLimitError || e.isSecurityError || e.isProviderHandled then excMessage e
  else "Unexpected error (" ++ e.pyName ++ "). Check audit log."

/-- The `except` cascade of `AgentKernel.run` followed by the teardown.
Handled classes emit their event and force the FSM to FAILED;
`AuditWriteFailure` skips the event, syncs the row with its fixed error
fields and re-raises — reaching neither `session_end` nor the final sync;
everything else is the `except Exception` branch with the sanitized
message. -/
def finishRun (env : KernelEnv) (st : KSt) (exc : Option PyExc) :
    KSt × Except PyExc SessionResultM :=
  match exc with
  | none => teardown env st none none
  | some e =>
    if e = .auditWriteFailure then
      match failTransition st with
      | .error (e2, st2) => (st2, .error e2)
      | .ok st2 =>
        match syncSessionOp env st2.fsm st2.stepCount st2.totalCost
            (some "AuditWriteFailureError")
            (some "Audit write failed — session terminated") st2 with
        | .error (e3, st3) => (st3, .error e3)
        | .ok st3 => (st3, .error .auditWriteFailure)
    else
      match emitOp env (handledEventName e) st with
      | .error (e2, st2) => (st2, .error e2)
      | .ok st2 =>
        match failTransition st2 with
        | .error (e3, st3) => (st3, .error e3)
        | .ok st3 => teardown env st3 (some e.pyName) (some (handledErrMsg e))

def initialKSt : KSt :=
  { fsm := SessionFSM.init, stepCount := 0, totalCost := 0, answer := none,
    store := { sessionRow := none, messages := [], stepRows := [], events := [] },
    cnt := Counters.zero }

/-- `AgentKernel.run(request)`.  The startup sequence runs outside the
`try`/`except` block: `create_session` (failure re-raised), the injection
scan (a hit emits `injection_scan_warn` but does not block), the
`session_start` event, IDLE → RUNNING plus a sync, appending the task as the
user message, and the first execution-context build (a conversation read).
Then the main loop runs inside `try`, and `finishRun` applies the handler
cascade and teardown. -/
def runKernel (env : KernelEnv) (cfg : KernelConfigM) (task : String) :
    KSt × Except PyExc SessionResultM :=
  let st := initialKSt
  if env.createSessionFails then (st, .error .auditWriteFailure)
  else
  let row0 : SessionRow :=
    { status := .IDLE, totalSteps := 0, totalCostUsd := 0,
      errorType := none, errorMsg := none }
  let st := { st with store := { st.store with sessionRow := some row0 } }
  match (if env.taskClean then .ok st else emitOp env "injection_scan_warn" st :
      Except (PyExc × KSt) KSt) with
  | .error (e, st') => (st', .error e)
  | .ok st =>
  match emitOp env "session_start" st with
  | .error (e, st') => (st', .error e)
  | .ok st =>
  match transitionOp .RUNNING st with
  | .error (e, st') => (st', .error e)
  | .ok st =>
  match syncSessionOp env st.fsm st.stepCount st.totalCost none none st with
  | .error (e, st') => (st', .error e)
  | .ok st =>
  match appendMessageOp env
      { role := .user, content := task, toolName := none, toolCallId := none } st with
  | .error (e, st') => (st', .error e)
  | .ok st =>
  match getHistoryOp env st with
  | .error (e, st') => (st', .error e)
  | .ok (_hist, st) =>
  let r := kernelLoop env cfg (cfg.maxSteps + 1) st
  finishRun env r.1 r.2

/-! ## Derived store quantities -/

/-- The sum of the step rows' `cost_usd` values (a row not yet finalized has
`NULL`, read as 0). -/
def costSum (rows : List StepRow) : ℚ :=
  rows.foldr (fun r a => r.costUsd.getD 0 + a) 0

/-- Step rows of a session are numbered `1, 2, …` in insertion order. -/
def rowsNumbered (rows : List StepRow) : Prop :=
  rows.map StepRow.stepNumber = List.range' 1 rows.length

/-- The loop invariant relating the kernel's locals to the step table:
rows are numbered consecutively, `step_count` equals the number of rows, and
`total_cost` equals the sum of the rows' costs. -/
def stepInvariant (st : KSt) : Prop :=
  rowsNumbered st.store.stepRows ∧
    st.stepCount = st.store.stepRows.length ∧
    st.totalCost = costSum st.store.stepRows

/-! ## Concrete instances used in witnesses and counterexamples -/

def okToolResp : ModelRespM :=
  { action := .toolCall, toolCall := some { toolName := "t", toolCallId := "c1" },
    finalAnswer := none, inputTokens := 0, outputTokens := 0 }

def okFinalResp : ModelRespM :=
  { action := .finalAnswer, toolCall := none,
    finalAnswer := some "The answer is 42.", inputTokens := 0, outputTokens := 0 }

def okToolResult : ToolResultM :=
  { ok := true, toolName := "t", toolCallId := "", data := some (.obj []),
    errorType := none, errorMessage := none, durationMs := 0 }

/-- A fully healthy environment whose provider immediately answers. -/
def baseEnv : KernelEnv :=
  { createSessionFails := false, eventWriteFails := fun _ => false,
    histReadFails := fun _ => false, kvWriteFails := fun _ => false,
    sessionUpdateFails := fun _ => false, stepStartFails := fun _ => false,
    stepEndFails := fun _ => false, routerResult := fun _ => .ok okFinalResp,
    sandboxResult := fun _ => .ok okToolResult, stepCost := fun _ _ => 0,
    taskClean := true, hasTool := fun _ => true, toolPerms := fun _ => [] }

/-- A healthy environment whose provider asks for tool `t` on every step. -/
def loopToolEnv : KernelEnv := { baseEnv with routerResult := fun _ => .ok okToolResp }

/-- Every conversation read hits an `sqlite3.Error`. -/
def readFailEnv : KernelEnv := { baseEnv with histReadFails := fun _ => true }

/-- Every `write_step_start` hits an `sqlite3.Error`. -/
def stepStartFailEnv : KernelEnv := { loopToolEnv with stepStartFails := fun _ => true }

def cfgOne : KernelConfigM := { maxSteps := 1, maxCostUsd := 1, allowedPermissions := [] }

/-- A kernel state as the main loop sees it: RUNNING, nothing recorded yet. -/
def stRunning : KSt :=
  { initialKSt with fsm := { state := .RUNNING, history := [] } }

/-- Router environment: rate-limited on attempts 1 and 2, success on 3. -/
def rwEnv : RouterEnv Unit :=
  { providerResp := fun n => if n = 3 then .ok () else .error .modelRateLimit,
    jitter := fun _ => 0, times := fun _ => 0 }

/-- Router environment: provider always succeeds. -/
def roEnv : RouterEnv Unit :=
  { providerResp := fun _ => .ok (), jitter := fun _ => 0, times := fun _ => 0 }

/-- A breaker with the constructor defaults (`threshold 3, window 60,
recovery 120`). -/
def cbDefault : CircuitBreaker := CircuitBreaker.fresh "mock" 3 60 120

def cbClosed : CircuitBreaker := CircuitBreaker.fresh "p" 2 10 5
def cbClosed1 : CircuitBreaker := { cbClosed with failures := [0] }
def cbOpen : CircuitBreaker := { cbClosed with state := .OPEN, openedAt := some 1 }
def cbHalf : CircuitBreaker := { cbOpen with state := .HALF_OPEN }

/-- A canonicalization fixture: `/tmp` and `/etc/passwd` resolve to
themselves, everything else fails to resolve. -/
def resolveW : String → Option String := fun s =>
  if s = "/tmp" then some "/tmp"
  else if s = "/etc/passwd" then some "/etc/passwd"
  else none

def manifestW : ToolManifest :=
  { name := "read_file", permissions := [.FS_READ], timeoutSeconds := 5,
    maxMemoryMb := 64, inputSchema := .untyped, outputSchema := .untyped,
    allowedPaths := ["/tmp"] }

def manifestNoPaths : ToolManifest := { manifestW with allowedPaths := [] }

def argsW : List (String × JValue) := [("path", .str "/etc/passwd")]

def fieldsFalsyOk : List (String × JValue) := [("ok", .bool false), ("error", .str "boom")]

def fieldsNullData : List (String × JValue) := [("ok", .bool true), ("data", .null)]

/-! ## C6: session FSM transition table -/

/-- C6.  `SessionFSM` starts in IDLE, and `transition(to)` succeeds — moving
to the requested state and recording the transition — exactly for the pairs
of the table (IDLE→{RUNNING, CANCELLED}; RUNNING→{WAITING, DONE, FAILED,
CANCELLED}; WAITING→{RUNNING, FAILED, CANCELLED}); every other request,
including everything out of DONE, FAILED, CANCELLED, raises
`InvalidStateTransition(from, to)` — raised before any mutation, so the
caller's FSM is unchanged (the error branch returns no new FSM). -/
theorem claim_C6 :
    SessionFSM.init.state = SessionStatus.IDLE ∧
    ∀ f : SessionFSM, ∀ t : SessionStatus,
      ((f.state, t) ∈ specTransitionTable ↔
        f.transition t = .ok { state := t, history := f.history ++ [(f.state, t)] }) ∧
      ((f.state, t) ∉ specTransitionTable ↔
        f.transition t = .error { src := f.state, tgt := t }) := by
  refine ⟨rfl, ?_⟩
  rintro ⟨s, hist⟩ t
  cases s <;> cases t <;>
    simp [SessionFSM.transition, validTargets, specTransitionTable]

/-! ## C7: circuit breaker lifecycle -/

/-- C7.  The breaker follows the specified lifecycle: in CLOSED a recorded
failure appends a timestamp after evicting entries older than the window,
and reaching the threshold moves it to OPEN with `opened_at = now` and a
cleared window; in OPEN every admission check raises
`CircuitBreakerOpen(provider)` until `now - opened_at ≥ recovery_seconds`,
after which the next state query yields HALF_OPEN; in HALF_OPEN a success
returns to CLOSED clearing `opened_at`, and a failure returns to OPEN with
`opened_at = now`. -/
theorem claim_C7 (cb : CircuitBreaker) (now : ℚ) :
    (cb.state = .CLOSED →
      ((cb.failures.filter (fun t => now - t < cb.window)).length + 1 < cb.threshold →
        cb.recordFailure now =
          { cb with failures := cb.failures.filter (fun t => now - t < cb.window) ++ [now] }) ∧
      (cb.threshold ≤ (cb.failures.filter (fun t => now - t < cb.window)).length + 1 →
        cb.recordFailure now =
          { cb with state := .OPEN, openedAt := some now, failures := [] })) ∧
    (∀ t0, cb.state = .OPEN → cb.openedAt = some t0 → now - t0 < cb.recovery →
      cb.allowRequest now = .error cb.provider) ∧
    (∀ t0, cb.state = .OPEN → cb.openedAt = some t0 → cb.recovery ≤ now - t0 →
      cb.stateAt now = (.HALF_OPEN, { cb with state := .HALF_OPEN }) ∧
        ∃ cb', cb.allowRequest now = .ok cb' ∧ cb'.state = .HALF_OPEN) ∧
    (cb.state = .HALF_OPEN →
      cb.recordSuccess = { cb with state := .CLOSED, failures := [], openedAt := none }) ∧
    (cb.state = .HALF_OPEN →
      cb.recordFailure now = { cb with state := .OPEN, openedAt := some now }) := by
  refine ⟨fun hC => ⟨fun hlt => ?_, fun hge => ?_⟩, fun t0 hO hoa hrec => ?_,
    fun t0 hO hoa hrec => ?_, fun hH => ?_, fun hH => ?_⟩
  · simp only [CircuitBreaker.recordFailure, hC]
    rw [if_neg (by simp), if_neg (by simp; omega)]
  · simp only [CircuitBreaker.recordFailure, hC]
    rw [if_neg (by simp), if_pos (by simp; omega)]
  · simp [CircuitBreaker.allowRequest, CircuitBreaker.stateAt, hO, hoa,
      not_le.mpr hrec]
  · constructor
    · simp [CircuitBreaker.stateAt, hO, hoa, hrec]
    · refine ⟨{ cb with state := .HALF_OPEN }, ?_, rfl⟩
      simp [CircuitBreaker.allowRequest, CircuitBreaker.stateAt, hO, hoa, hrec]
  · simp [CircuitBreaker.recordSuccess, hH]
  · simp [CircuitBreaker.recordFailure, hH]

/-- Witness for C7 at concrete breakers and clocks. -/
theorem claim_C7_witness :
    (cbClosed.recordFailure 0 = { cbClosed with failures := [0] }) ∧
    (cbClosed1.recordFailure 1 =
      { cbClosed1 with state := .OPEN, openedAt := some 1, failures := [] }) ∧
    (cbOpen.allowRequest 2 = .error "p") ∧
    (cbOpen.stateAt 6 = (.HALF_OPEN, { cbOpen with state := .HALF_OPEN })) ∧
    (cbHalf.recordSuccess =
      { cbHalf with state := .CLOSED, failures := [], openedAt := none }) ∧
    (cbHalf.recordFailure 7 = { cbHalf with state := .OPEN, openedAt := some 7 }) := by
  refine ⟨?_, ?_, ?_, ?_, ?_, ?_⟩
  · have h := ((claim_C7 cbClosed 0).1 rfl).1 (by norm_num [cbClosed, CircuitBreaker.fresh])
    simpa [cbClosed, CircuitBreaker.fresh] using h
  · have h := ((claim_C7 cbClosed1 1).1 rfl).2
      (by norm_num [cbClosed1, cbClosed, CircuitBreaker.fresh])
    simpa [cbClosed1, cbClosed, CircuitBreaker.fresh] using h
  · exact (claim_C7 cbOpen 2).2.1 1 rfl rfl (by norm_num [cbOpen, cbClosed, CircuitBreaker.fresh])
  · exact ((claim_C7 cbOpen 6).2.2.1 1 rfl rfl
      (by norm_num [cbOpen, cbClosed, CircuitBreaker.fresh])).1
  · exact (claim_C7 cbHalf 0).2.2.2.1 rfl
  · exact (claim_C7 cbHalf 7).2.2.2.2 rfl

/-! ## C1: hash-chained audit events -/

theorem string_append_left_cancel {a b c : String} (h : a ++ b = a ++ c) : b = c := by
  apply String.ext
  have hd : a.data ++ b.data = a.data ++ c.data := by
    simpa [String.data_append] using congrArg String.data h
  exact List.append_cancel_left hd

theorem writeEventsChain_spec (H : String → String) :
    ∀ (ps : List String) (prev : String),
      chainFromSpec H prev (writeEventsChain H prev ps)
  | [], _ => trivial
  | p :: ps, prev =>
      ⟨rfl, writeEventsChain_spec H ps (nextChainHash H prev p)⟩

theorem verifyChainFrom_writeEventsChain (H : String → String) :
    ∀ (ps : List String) (prev : String),
      verifyChainFrom H prev (writeEventsChain H prev ps) = true
  | [], _ => rfl
  | p :: ps, prev => by
      simp only [writeEventsChain, verifyChainFrom, if_pos rfl]
      exact verifyChainFrom_writeEventsChain H ps (nextChainHash H prev p)

theorem verifyChainFrom_mutated (H : String → String)
    (hInj : Function.Injective H) :
    ∀ (ps : List String) (prev : String) (i : Nat) (p' : String)
      (h : i < ps.length), p' ≠ ps.get ⟨i, h⟩ →
      verifyChainFrom H prev (setPayload (writeEventsChain H prev ps) i p') = false
  | [], _, i, _, h, _ => absurd h (by simp)
  | p :: ps, prev, 0, p', _, hne => by
      simp only [writeEventsChain, setPayload, verifyChainFrom]
      rw [if_neg]
      intro hEq
      apply hne
      have h1 : prev ++ H p' = prev ++ H p := hInj hEq
      have h2 : H p' = H p := string_append_left_cancel h1
      simpa [List.get] using hInj h2
  | p :: ps, prev, i + 1, p', h, hne => by
      simp only [writeEventsChain, setPayload, verifyChainFrom, if_pos rfl]
      exact verifyChainFrom_mutated H hInj ps (nextChainHash H prev p) i p'
        (by simpa using Nat.lt_of_succ_lt_succ h) (by simpa [List.get] using hne)

/-- C1.  For every session the audit-event chain is seeded with 64 hex zeros
and each stored `chain_hash` equals `H(prev_chain_hash ∥ H(payload_json))`;
consequently `verify_chain` returns true for any event sequence written in
order and left unmodified, false when any stored `payload_json` is mutated
afterwards (`H` collision-free, i.e. injective), false on a store read
error, and true for a session with no events. -/
theorem claim_C1 (H : String → String) (hInj : Function.Injective H) :
    (∀ ps : List String, chainFromSpec H chainSeed (writeEvents H ps)) ∧
    (∀ ps : List String, verify_chain H (.ok (writeEvents H ps)) = true) ∧
    (∀ (ps : List String) (i : Nat) (p' : String) (h : i < ps.length),
      p' ≠ ps.get ⟨i, h⟩ →
      verify_chain H (.ok (setPayload (writeEvents H ps) i p')) = false) ∧
    verify_chain H (.error ()) = false ∧
    verify_chain H (.ok []) = true := by
  refine ⟨fun ps => writeEventsChain_spec H ps chainSeed,
    fun ps => verifyChainFrom_writeEventsChain H ps chainSeed,
    fun ps i p' h hne => verifyChainFrom_mutated H hInj ps chainSeed i p' h hne,
    rfl, rfl⟩

/-- Witness for C1 with the identity as collision-free hash and a two-event
session whose first stored payload gets overwritten. -/
theorem claim_C1_witness :
    verify_chain (fun s => s) (.ok (writeEvents (fun s => s) ["a", "b"])) = true ∧
    verify_chain (fun s => s)
      (.ok (setPayload (writeEvents (fun s => s) ["a", "b"]) 0 "x")) = false ∧
    verify_chain (fun s => s) (.error ()) = false ∧
    verify_chain (fun s => s) (.ok []) = true := by
  have hInj : Function.Injective (fun s : String => s) := fun _ _ h => h
  exact ⟨(claim_C1 _ hInj).2.1 ["a", "b"],
    (claim_C1 _ hInj).2.2.1 ["a", "b"] 0 "x" (by decide) (by decide),
    (claim_C1 _ hInj).2.2.2.1, (claim_C1 _ hInj).2.2.2.2⟩

/-! ## C2: path validation precedes the subprocess -/

theorem checkPathValue_error_eq {resolve : String → Option String}
    {bases : List String} {v : JValue} {e : SandboxErr}
    (h : checkPathValue resolve bases v = .error e) : e = .pathTraversal := by
  cases v <;> simp [checkPathValue] at h
  case str s =>
    rcases hpa : isPathArg s with _ | _ <;> rw [hpa] at h <;> simp at h
    · rcases hr : resolve s with _ | r <;> rw [hr] at h <;> simp at h
      · exact h.symm
      · rcases hal : pathAllowed r bases with _ | _ <;> rw [hal] at h <;> simp at h
        exact h.symm

theorem checkPathValues_error_of_mem {resolve : String → Option String}
    {bases : List String} {v : JValue} :
    ∀ vs : List JValue, v ∈ vs →
      checkPathValue resolve bases v = .error .pathTraversal →
      checkPathValues resolve bases vs = .error .pathTraversal := by
  intro vs
  induction vs with
  | nil => simp
  | cons w ws ih =>
      intro hmem hv
      simp only [checkPathValues]
      cases hw : checkPathValue resolve bases w with
      | error e => rw [checkPathValue_error_eq hw]
      | ok _ =>
          rcases List.mem_cons.mp hmem with hvw | hvs
          · rw [hvw] at hv; rw [hv] at hw; cases hw
          · exact ih hvs hv

/-- C2.  For every tool call whose arguments contain a path-like string value
(containing `/` or starting with `.`) that, once canonicalized, lies outside
every base of a non-empty `manifest.allowed_paths`, `run_tool` (with input
validation passing — it runs first) raises `PathTraversal` and the subprocess
is never spawned; a canonicalization failure also raises `PathTraversal`;
with empty `allowed_paths` path checking is skipped entirely. -/
theorem claim_C2 (resolve : String → Option String) (child : ChildOutcome)
    (m : ToolManifest) (args : List (String × JValue)) :
    (∀ (bases : List String) (k s : String),
      m.allowedPaths ≠ [] →
      m.allowedPaths.mapM resolve = some bases →
      validate_input args m = .ok () →
      (k, JValue.str s) ∈ args →
      isPathArg s = true →
      (resolve s = none ∨ ∃ r, resolve s = some r ∧ pathAllowed r bases = false) →
      run_tool_sandboxed resolve child m args = (.error .pathTraversal, false)) ∧
    (m.allowedPaths = [] → validate_paths resolve args m = .ok ()) := by
  constructor
  · intro bases k s hne hbases hinput hmem hpa hbad
    have hv : checkPathValue resolve bases (.str s) = .error .pathTraversal := by
      simp only [checkPathValue, hpa, Bool.not_true]
      rcases hbad with hn | ⟨r, hr, hal⟩
      · simp [hn]
      · rw [hr]; simp [hal]
    have hmem' : JValue.str s ∈ args.map Prod.snd :=
      List.mem_map.mpr ⟨(k, .str s), hmem, rfl⟩
    have hvals := checkPathValues_error_of_mem (args.map Prod.snd) hmem' hv
    have hpaths : validate_paths resolve args m = .error .pathTraversal := by
      simp only [validate_paths]
      rw [if_neg (by simpa [List.isEmpty_iff] using hne), hbases]
      exact hvals
    simp [run_tool_sandboxed, hinput, hpaths]
  · intro h
    simp [validate_paths, h]

/-- Witness for C2: a `read_file` manifest restricted to `/tmp` rejects
`/etc/passwd` without spawning, and a manifest with empty `allowed_paths`
skips path checking. -/
theorem claim_C2_witness :
    run_tool_sandboxed resolveW .timeout manifestW argsW = (.error .pathTraversal, false) ∧
    validate_paths resolveW argsW manifestNoPaths = .ok () := by
  constructor
  · exact (claim_C2 resolveW .timeout manifestW argsW).1 ["/tmp"] "path" "/etc/passwd"
      (by decide) (by decide) rfl (by simp [argsW]) (by decide)
      (Or.inr ⟨"/etc/passwd", by decide, by decide⟩)
  · exact (claim_C2 resolveW .timeout manifestNoPaths argsW).2 rfl

/-! ## C10: child JSON payload handling -/

/-- C10.  For every child that exits 0 printing a JSON object: a missing or
falsy `ok` key makes `run_tool_sandboxed` return (not raise)
`ToolResult(ok=false, error_type="ToolExecutionError")` with the error
message taken from the payload's `error` key (`"Unknown"` when absent, via
`dict.get`); a truthy `ok` with missing-or-null `data` yields the empty
object as data, which is still validated against `output_schema` before
being returned. -/
theorem claim_C10 (resolve : String → Option String) (m : ToolManifest)
    (args : List (String × JValue)) (fields : List (String × JValue))
    (hin : validate_input args m = .ok ())
    (hpath : validate_paths resolve args m = .ok ()) :
    ((jgetD fields "ok" (.bool false)).truthy = false →
      run_tool_sandboxed resolve (.exited 0 (.json (.obj fields))) m args =
        (.ok { ok := false, toolName := m.name, toolCallId := "", data := none,
               errorType := some "ToolExecutionError",
               errorMessage := some (jgetD fields "error" (.str "Unknown")),
               durationMs := 0 }, true)) ∧
    ((jgetD fields "ok" (.bool false)).truthy = true →
      jgetD fields "data" .null = .null →
      (validate_output (.obj []) m = .ok () →
        run_tool_sandboxed resolve (.exited 0 (.json (.obj fields))) m args =
          (.ok { ok := true, toolName := m.name, toolCallId := "",
                 data := some (.obj []), errorType := none, errorMessage := none,
                 durationMs := 0 }, true)) ∧
      (∀ e, validate_output (.obj []) m = .error e →
        run_tool_sandboxed resolve (.exited 0 (.json (.obj fields))) m args =
          (.error e, true))) := by
  constructor
  · intro hok
    simp [run_tool_sandboxed, hin, hpath, hok]
  · intro hok hdata
    constructor
    · intro hout
      simp [run_tool_sandboxed, hin, hpath, hok, hdata]
      simp [JValue.truthy, hout]
    · intro e hout
      simp [run_tool_sandboxed, hin, hpath, hok, hdata]
      simp [JValue.truthy, hout]

/-- Witness for C10 at concrete payloads (falsy `ok` with an `error` string;
truthy `ok` with null `data` and a passing output schema). -/
theorem claim_C10_witness :
    run_tool_sandboxed resolveW (.exited 0 (.json (.obj fieldsFalsyOk)))
        manifestNoPaths [] =
      (.ok { ok := false, toolName := "read_file", toolCallId := "", data := none,
             errorType := some "ToolExecutionError",
             errorMessage := some (.str "boom"), durationMs := 0 }, true) ∧
    run_tool_sandboxed resolveW (.exited 0 (.json (.obj fieldsNullData)))
        manifestNoPaths [] =
      (.ok { ok := true, toolName := "read_file", toolCallId := "",
             data := some (.obj []), errorType := none, errorMessage := none,
             durationMs := 0 }, true) := by
  constructor
  · exact (claim_C10 resolveW manifestNoPaths [] fieldsFalsyOk rfl rfl).1 rfl
  · exact ((claim_C10 resolveW manifestNoPaths [] fieldsNullData rfl rfl).2 rfl rfl).1 rfl

/-! ## C9: unknown provider -/

/-- C9 (amended).  For every request whose provider name is not in the
router's registered provider map, `ModelRouter.call` raises the builtin
`ValueError` — which is not an `ARIAError` (no `UnknownProvider` error type
exists in the code base) — before any provider attempt is made. -/
theorem claim_C9 {α : Type} (registered : List String) (provider : String)
    (cb : CircuitBreaker) (env : RouterEnv α) (h : provider ∉ registered) :
    (routerCall registered provider cb env).result = .error .valueError ∧
    RouterErr.isARIAError .valueError = false ∧
    (routerCall registered provider cb env).providerCalls = 0 := by
  simp [routerCall, h, RouterErr.isARIAError]

/-- Counterexample for C9 as stated: the call for the unregistered provider
`"openai"` fails with the builtin `ValueError`, not with an
`ARIAError`-typed `UnknownProvider` (no such error type exists). -/
theorem claim_C9_counterexample :
    (routerCall ["mock"] "openai" cbDefault roEnv).result = .error .valueError ∧
    RouterErr.isARIAError .valueError = false := by
  exact ⟨rfl, rfl⟩

/-- Witness for C9 at a concrete unregistered provider. -/
theorem claim_C9_witness :
    (routerCall ["mock"] "nope" cbDefault roEnv).result = .error .valueError :=
  (claim_C9 ["mock"] "nope" cbDefault roEnv (by decide)).1

/-! ## C8: router retry, backoff and breaker interplay -/

theorem allowRequest_closed {cb : CircuitBreaker} (h : cb.state = .CLOSED)
    (t : ℚ) : cb.allowRequest t = .ok cb := by
  simp [CircuitBreaker.allowRequest, CircuitBreaker.stateAt, h]

theorem routerAttempts_calls_le {α : Type} (env : RouterEnv α) :
    ∀ (remaining attempt : Nat) (cb : CircuitBreaker) (tIdx : Nat)
      (sleeps : List ℚ) (calls : Nat) (lastE : Option ProviderExc),
      (routerAttempts env remaining attempt cb tIdx sleeps calls lastE).providerCalls ≤
        calls + remaining := by
  intro remaining
  induction remaining with
  | zero =>
      intro attempt cb tIdx sleeps calls lastE
      simp [routerAttempts]
  | succ n ih =>
      intro attempt cb tIdx sleeps calls lastE
      rw [routerAttempts]
      cases cb.allowRequest (env.times tIdx) with
      | error p => simp
      | ok cb' =>
          cases env.providerResp attempt with
          | ok r => simp
          | error e =>
              by_cases hr : e.retryable = true
              · simp only [hr, if_true]
                by_cases ha : attempt < maxRetries
                · simp only [ha, if_true]
                  have := ih (attempt + 1) (cb'.recordFailure (env.times (tIdx + 1)))
                    (tIdx + 2) (sleeps ++ [min (baseBackoff * 2 ^ (attempt - 1) +
                      env.jitter attempt) maxBackoff]) (calls + 1) (some e)
                  omega
                · simp only [ha, if_false]
                  have := ih (attempt + 1) (cb'.recordFailure (env.times (tIdx + 1)))
                    (tIdx + 2) sleeps (calls + 1) (some e)
                  omega
              · simp only [hr, if_false]
                simp

/-- C8.  `ModelRouter.call` makes at most 3 provider attempts; on a retryable
error (`ModelProviderError`/`ModelRateLimit`/`ModelTimeout`) it records a
breaker failure and, if attempts remain, sleeps
`min(2·2^(attempt-1) + U(0,1), 30)` seconds and retries, otherwise raises
`ModelProviderExhausted(attempts=3)` wrapping the last error; on
`ModelOutputValidation` it records a failure and re-raises immediately; a
`CircuitBreakerOpen` aborts immediately, leaving the breaker's failure
window untouched and making no provider call.  (Clock fixed at 0; fresh
breaker with threshold above 3 so the breaker admits throughout.) -/
theorem claim_C8 {α : Type} (env : RouterEnv α) (p : String) (th : Nat)
    (w rec : ℚ) (registered : List String)
    (hth : 3 < th) (hw : 0 < w) (htime : ∀ i, env.times i = 0)
    (hreg : p ∈ registered) :
    (∀ (prov : String) (cb : CircuitBreaker),
      (routerCall registered prov cb env).providerCalls ≤ 3) ∧
    (∀ (e1 e2 : ProviderExc) (r3 : α), e1.retryable = true → e2.retryable = true →
      env.providerResp 1 = .error e1 → env.providerResp 2 = .error e2 →
      env.providerResp 3 = .ok r3 →
      routerCall registered p (CircuitBreaker.fresh p th w rec) env =
        { result := .ok r3, breaker := CircuitBreaker.fresh p th w rec,
          sleeps := [min (2 * 2 ^ (1 - 1) + env.jitter 1) 30,
                     min (2 * 2 ^ (2 - 1) + env.jitter 2) 30],
          providerCalls := 3 }) ∧
    (∀ e1 e2 e3 : ProviderExc, e1.retryable = true → e2.retryable = true →
      e3.retryable = true →
      env.providerResp 1 = .error e1 → env.providerResp 2 = .error e2 →
      env.providerResp 3 = .error e3 →
      routerCall registered p (CircuitBreaker.fresh p th w rec) env =
        { result := .error (.modelProviderExhausted 3 (some e3)),
          breaker := { CircuitBreaker.fresh p th w rec with failures := [0, 0, 0] },
          sleeps := [min (2 * 2 ^ (1 - 1) + env.jitter 1) 30,
                     min (2 * 2 ^ (2 - 1) + env.jitter 2) 30],
          providerCalls := 3 }) ∧
    (env.providerResp 1 = .error .modelOutputValidation →
      routerCall registered p (CircuitBreaker.fresh p th w rec) env =
        { result := .error .modelOutputValidation,
          breaker := { CircuitBreaker.fresh p th w rec with failures := [0] },
          sleeps := [], providerCalls := 1 }) ∧
    (∀ t0 : ℚ, 0 - t0 < rec →
      routerCall registered p
          { CircuitBreaker.fresh p th w rec with state := .OPEN, openedAt := some t0 }
          env =
        { result := .error (.circuitBreakerOpen p),
          breaker := { CircuitBreaker.fresh p th w rec with state := .OPEN, openedAt := some t0 },
          sleeps := [], providerCalls := 0 }) := by
  have hn1 : ¬ (th ≤ 0 + 1) := by omega
  have hn2 : ¬ (th ≤ 1 + 1) := by omega
  have hn3 : ¬ (th ≤ 2 + 1) := by omega
  have hw0 : (0 : ℚ) - 0 < w := by simpa using hw
  have hrf1 : (CircuitBreaker.fresh p th w rec).recordFailure 0 =
      { CircuitBreaker.fresh p th w rec with failures := [0] } := by
    simp [CircuitBreaker.recordFailure, CircuitBreaker.fresh, hn1]
  have hrf2 : ({ CircuitBreaker.fresh p th w rec with failures := [0] }
        : CircuitBreaker).recordFailure 0 =
      { CircuitBreaker.fresh p th w rec with failures := [0, 0] } := by
    simp [CircuitBreaker.recordFailure, CircuitBreaker.fresh, List.filter, hw, hn2]
  have hrf3 : ({ CircuitBreaker.fresh p th w rec with failures := [0, 0] }
        : CircuitBreaker).recordFailure 0 =
      { CircuitBreaker.fresh p th w rec with failures := [0, 0, 0] } := by
    simp [CircuitBreaker.recordFailure, CircuitBreaker.fresh, List.filter, hw, hn3]
  refine ⟨?_, ?_, ?_, ?_, ?_⟩
  · intro prov cb
    by_cases h : prov ∈ registered
    · simpa [routerCall, h] using
        routerAttempts_calls_le env maxRetries 1 cb 0 [] 0 none
    · simp [routerCall, h]
  · intro e1 e2 r3 hr1 hr2 he1 he2 he3
    simp only [routerCall, if_pos hreg, maxRetries]
    rw [routerAttempts, allowRequest_closed rfl]
    simp only [htime, he1, hr1, if_true, hrf1, maxRetries]
    norm_num
    rw [routerAttempts, allowRequest_closed rfl]
    simp only [htime, he2, hr2, if_true, hrf2, maxRetries]
    norm_num
    rw [routerAttempts, allowRequest_closed rfl]
    simp only [htime, he3]
    simp [CircuitBreaker.recordSuccess, CircuitBreaker.fresh, baseBackoff, maxBackoff]
    norm_num
  · intro e1 e2 e3 hr1 hr2 hr3 he1 he2 he3
    simp only [routerCall, if_pos hreg, maxRetries]
    rw [routerAttempts, allowRequest_closed rfl]
    simp only [htime, he1, hr1, if_true, hrf1, maxRetries]
    norm_num
    rw [routerAttempts, allowRequest_closed rfl]
    simp only [htime, he2, hr2, if_true, hrf2, maxRetries]
    norm_num
    rw [routerAttempts, allowRequest_closed rfl]
    simp only [htime, he3, hr3, if_true, hrf3, maxRetries]
    norm_num
    rw [routerAttempts]
    simp [baseBackoff, maxBackoff, maxRetries]
    norm_num
  · intro he1
    simp only [routerCall, if_pos hreg, maxRetries]
    rw [routerAttempts, allowRequest_closed rfl]
    simp only [htime, he1, hrf1]
    simp [ProviderExc.retryable]
  · intro t0 ht0
    simp only [routerCall, if_pos hreg, maxRetries]
    rw [routerAttempts, htime 0]
    have ht0' : ¬ rec ≤ -t0 := by
      rw [not_le]
      simpa using ht0
    have hopen : ({ CircuitBreaker.fresh p th w rec with state := .OPEN, openedAt := some t0 } : CircuitBreaker).allowRequest 0 = .error p := by
      simp [CircuitBreaker.allowRequest, CircuitBreaker.stateAt,
        CircuitBreaker.fresh, ht0']
    rw [hopen]

/-- Witness for C8: rate-limited on the first two attempts and succeeding on
the third under a fresh threshold-4 breaker with a constant clock. -/
theorem claim_C8_witness :
    routerCall ["mock"] "mock" (CircuitBreaker.fresh "mock" 4 1 1) rwEnv =
      { result := .ok (), breaker := CircuitBreaker.fresh "mock" 4 1 1,
        sleeps := [min (2 * 2 ^ (1 - 1) + rwEnv.jitter 1) 30,
                   min (2 * 2 ^ (2 - 1) + rwEnv.jitter 2) 30],
        providerCalls := 3 } := by
  exact (claim_C8 rwEnv "mock" 4 1 1 ["mock"] (by norm_num) (by norm_num)
    (fun i => rfl) (by simp)).2.1 .modelRateLimit .modelRateLimit () rfl rfl rfl rfl rfl

/-! ## Kernel operation inversion lemmas -/

theorem emitOp_ok {env : KernelEnv} {t : String} {st st' : KSt}
    (h : emitOp env t st = .ok st') :
    st'.fsm = st.fsm ∧ st'.stepCount = st.stepCount ∧ st'.totalCost = st.totalCost ∧
    st'.answer = st.answer ∧ st'.store.stepRows = st.store.stepRows ∧
    st'.store.sessionRow = st.store.sessionRow ∧
    st'.store.messages = st.store.messages := by
  simp only [emitOp] at h
  split at h
  · cases h
  · cases h
    simp

theorem emitOp_err {env : KernelEnv} {t : String} {st st' : KSt} {e : PyExc}
    (h : emitOp env t st = .error (e, st')) :
    e = .auditWriteFailure ∧ st'.fsm = st.fsm ∧ st'.stepCount = st.stepCount ∧
    st'.totalCost = st.totalCost ∧ st'.answer = st.answer ∧
    st'.store = st.store := by
  simp only [emitOp] at h
  split at h
  · cases h
    simp
  · cases h

theorem getHistoryOp_ok {env : KernelEnv} {st st' : KSt} {hist : List MessageM}
    (h : getHistoryOp env st = .ok (hist, st')) :
    st'.fsm = st.fsm ∧ st'.stepCount = st.stepCount ∧ st'.totalCost = st.totalCost ∧
    st'.answer = st.answer ∧ st'.store = st.store := by
  simp only [getHistoryOp] at h
  split at h
  · cases h
  · cases h
    simp

theorem getHistoryOp_err {env : KernelEnv} {st st' : KSt} {e : PyExc}
    (h : getHistoryOp env st = .error (e, st')) :
    e = .memoryCorruption ∧ st'.fsm = st.fsm ∧ st'.stepCount = st.stepCount ∧
    st'.totalCost = st.totalCost ∧ st'.answer = st.answer ∧
    st'.store = st.store := by
  simp only [getHistoryOp] at h
  split at h
  · cases h
    simp
  · cases h

theorem setConvOp_ok {env : KernelEnv} {msgs : List MessageM} {st st' : KSt}
    (h : setConvOp env msgs st = .ok st') :
    st'.fsm = st.fsm ∧ st'.stepCount = st.stepCount ∧ st'.totalCost = st.totalCost ∧
    st'.answer = st.answer ∧ st'.store.stepRows = st.store.stepRows ∧
    st'.store.sessionRow = st.store.sessionRow ∧
    st'.store.events = st.store.events := by
  simp only [setConvOp] at h
  split at h
  · cases h
  · cases h
    simp

theorem setConvOp_err {env : KernelEnv} {msgs : List MessageM} {st st' : KSt} {e : PyExc}
    (h : setConvOp env msgs st = .error (e, st')) :
    e = .auditWriteFailure ∧ st'.fsm = st.fsm ∧ st'.stepCount = st.stepCount ∧
    st'.totalCost = st.totalCost ∧ st'.answer = st.answer ∧
    st'.store = st.store := by
  simp only [setConvOp] at h
  split at h
  · cases h
    simp
  · cases h

theorem appendMessageOp_ok {env : KernelEnv} {msg : MessageM} {st st' : KSt}
    (h : appendMessageOp env msg st = .ok st') :
    st'.fsm = st.fsm ∧ st'.stepCount = st.stepCount ∧ st'.totalCost = st.totalCost ∧
    st'.answer = st.answer ∧ st'.store.stepRows = st.store.stepRows ∧
    st'.store.sessionRow = st.store.sessionRow ∧
    st'.store.events = st.store.events := by
  simp only [appendMessageOp] at h
  cases hg : getHistoryOp env st with
  | error e => rw [hg] at h; cases h
  | ok p =>
      obtain ⟨hist, st1⟩ := p
      rw [hg] at h
      obtain ⟨hf, hc, ht, ha, hs⟩ := getHistoryOp_ok hg
      obtain ⟨hf2, hc2, ht2, ha2, hr2, hsr2, he2⟩ := setConvOp_ok h
      refine ⟨hf2.trans hf, hc2.trans hc, ht2.trans ht, ha2.trans ha, ?_, ?_, ?_⟩
      · rw [hr2, hs]
      · rw [hsr2, hs]
      · rw [he2, hs]

theorem appendMessageOp_err {env : KernelEnv} {msg : MessageM} {st st' : KSt} {e : PyExc}
    (h : appendMessageOp env msg st = .error (e, st')) :
    (e = .memoryCorruption ∨ e = .auditWriteFailure) ∧ st'.fsm = st.fsm ∧
    st'.stepCount = st.stepCount ∧ st'.totalCost = st.totalCost ∧
    st'.answer = st.answer ∧ st'.store = st.store := by
  simp only [appendMessageOp] at h
  cases hg : getHistoryOp env st with
  | error p =>
      rw [hg] at h
      cases h
      obtain ⟨he, hf, hc, ht, ha, hs⟩ := getHistoryOp_err hg
      exact ⟨Or.inl he, hf, hc, ht, ha, hs⟩
  | ok p =>
      obtain ⟨hist, st1⟩ := p
      rw [hg] at h
      obtain ⟨hf, hc, ht, ha, hs⟩ := getHistoryOp_ok hg
      obtain ⟨he2, hf2, hc2, ht2, ha2, hs2⟩ := setConvOp_err h
      exact ⟨Or.inr he2, hf2.trans hf, hc2.trans hc, ht2.trans ht, ha2.trans ha,
        hs2.trans hs⟩

theorem syncSessionOp_ok {env : KernelEnv} {fsm : SessionFSM} {steps : Nat}
    {cost : ℚ} {errT errM : Option String} {st st' : KSt}
    (h : syncSessionOp env fsm steps cost errT errM st = .ok st') :
    st'.fsm = st.fsm ∧ st'.stepCount = st.stepCount ∧ st'.totalCost = st.totalCost ∧
    st'.answer = st.answer ∧ st'.store.stepRows = st.store.stepRows ∧
    st'.store.messages = st.store.messages ∧ st'.store.events = st.store.events ∧
    st'.store.sessionRow = st.store.sessionRow.map (fun _ =>
      { status := fsm.state, totalSteps := steps, totalCostUsd := round6 cost,
        errorType := errT, errorMsg := errM }) := by
  simp only [syncSessionOp] at h
  split at h
  · cases h
  · cases h
    simp

theorem syncSessionOp_err {env : KernelEnv} {fsm : SessionFSM} {steps : Nat}
    {cost : ℚ} {errT errM : Option String} {st st' : KSt} {e : PyExc}
    (h : syncSessionOp env fsm steps cost errT errM st = .error (e, st')) :
    e = .auditWriteFailure ∧ st'.fsm = st.fsm ∧ st'.stepCount = st.stepCount ∧
    st'.totalCost = st.totalCost ∧ st'.answer = st.answer ∧
    st'.store = st.store := by
  simp only [syncSessionOp] at h
  split at h
  · cases h
    simp
  · cases h

theorem writeStepStartOp_ok {env : KernelEnv} {row : StepRow} {st st' : KSt}
    (h : writeStepStartOp env row st = .ok st') :
    st'.fsm = st.fsm ∧ st'.stepCount = st.stepCount ∧ st'.totalCost = st.totalCost ∧
    st'.answer = st.answer ∧ st'.store.stepRows = st.store.stepRows ++ [row] ∧
    st'.store.sessionRow = st.store.sessionRow ∧
    st'.store.messages = st.store.messages := by
  simp only [writeStepStartOp] at h
  split at h
  · cases h
  · cases h
    simp

theorem writeStepStartOp_err {env : KernelEnv} {row : StepRow} {st st' : KSt} {e : PyExc}
    (h : writeStepStartOp env row st = .error (e, st')) :
    e = .auditWriteFailure ∧ st'.fsm = st.fsm ∧ st'.stepCount = st.stepCount ∧
    st'.totalCost = st.totalCost ∧ st'.answer = st.answer ∧
    st'.store = st.store := by
  simp only [writeStepStartOp] at h
  split at h
  · cases h
    simp
  · cases h

theorem writeStepEndOp_ok {env : KernelEnv} {n : Nat} {s : StepStatus} {c : ℚ}
    {st st' : KSt} (h : writeStepEndOp env n s c st = .ok st') :
    st'.fsm = st.fsm ∧ st'.stepCount = st.stepCount ∧ st'.totalCost = st.totalCost ∧
    st'.answer = st.answer ∧
    st'.store.stepRows = st.store.stepRows.map (fun r =>
      if r.stepNumber = n then { r with status := s, costUsd := some c } else r) ∧
    st'.store.sessionRow = st.store.sessionRow ∧
    st'.store.messages = st.store.messages := by
  simp only [writeStepEndOp] at h
  split at h
  · cases h
  · cases h
    simp

theorem writeStepEndOp_err {env : KernelEnv} {n : Nat} {s : StepStatus} {c : ℚ}
    {st st' : KSt} {e : PyExc} (h : writeStepEndOp env n s c st = .error (e, st')) :
    e = .auditWriteFailure ∧ st'.fsm = st.fsm ∧ st'.stepCount = st.stepCount ∧
    st'.totalCost = st.totalCost ∧ st'.answer = st.answer ∧
    st'.store = st.store := by
  simp only [writeStepEndOp] at h
  split at h
  · cases h
    simp
  · cases h

theorem routerCallOp_ok {env : KernelEnv} {st st' : KSt} {resp : ModelRespM}
    (h : routerCallOp env st = .ok (resp, st')) :
    st'.fsm = st.fsm ∧ st'.stepCount = st.stepCount ∧ st'.totalCost = st.totalCost ∧
    st'.answer = st.answer ∧ st'.store = st.store := by
  simp only [routerCallOp] at h
  split at h
  · cases h
  · cases h
    simp

theorem routerCallOp_err {env : KernelEnv} {st st' : KSt} {e : PyExc}
    (h : routerCallOp env st = .error (e, st')) :
    st'.fsm = st.fsm ∧ st'.stepCount = st.stepCount ∧ st'.totalCost = st.totalCost ∧
    st'.answer = st.answer ∧ st'.store = st.store := by
  simp only [routerCallOp] at h
  split at h
  · cases h
    simp
  · cases h

theorem transitionOp_ok {t : SessionStatus} {st st' : KSt}
    (h : transitionOp t st = .ok st') :
    st'.fsm.state = t ∧ st'.stepCount = st.stepCount ∧ st'.totalCost = st.totalCost ∧
    st'.answer = st.answer ∧ st'.store = st.store ∧ st'.cnt = st.cnt := by
  simp only [transitionOp] at h
  cases ht : st.fsm.transition t with
  | error e2 => rw [ht] at h; cases h
  | ok f =>
      rw [ht] at h
      cases h
      simp only [SessionFSM.transition] at ht
      split at ht
      · cases ht
        simp
      · cases ht

theorem transitionOp_err {t : SessionStatus} {st st' : KSt} {e : PyExc}
    (h : transitionOp t st = .error (e, st')) :
    e = .invalidStateTransition ∧ st' = st := by
  simp only [transitionOp] at h
  cases ht : st.fsm.transition t with
  | ok f => rw [ht] at h; cases h
  | error e2 =>
      rw [ht] at h
      cases h
      exact ⟨rfl, rfl⟩

theorem executeToolOp_ok {env : KernelEnv} {tc : ToolCallM} {st st' : KSt}
    {tr : ToolResultM} (h : executeToolOp env tc st = .ok (tr, st')) :
    st'.fsm = st.fsm ∧ st'.stepCount = st.stepCount ∧ st'.totalCost = st.totalCost ∧
    st'.answer = st.answer ∧ st'.store.stepRows = st.store.stepRows ∧
    st'.store.sessionRow = st.store.sessionRow ∧
    st'.store.messages = st.store.messages := by
  simp only [executeToolOp] at h
  cases h1 : emitOp env "tool_call_start" st with
  | error p => rw [h1] at h; cases h
  | ok st1 =>
      rw [h1] at h
      dsimp only at h
      obtain ⟨hf1, hc1, ht1, ha1, hr1, hsr1, hm1⟩ := emitOp_ok h1
      cases h2 : env.sandboxResult st1.cnt.sandboxRuns with
      | ok r =>
          rw [h2] at h
          dsimp only at h
          cases h3 : emitOp env "tool_call_end"
              { st1 with cnt := { st1.cnt with sandboxRuns := st1.cnt.sandboxRuns + 1 } } with
          | error p => rw [h3] at h; cases h
          | ok st3 =>
              rw [h3] at h
              dsimp only at h
              cases h
              obtain ⟨hf3, hc3, ht3, ha3, hr3, hsr3, hm3⟩ := emitOp_ok h3
              simp only [hf3, hc3, ht3, ha3, hr3, hsr3, hm3]
              exact ⟨hf1, hc1, ht1, ha1, hr1, hsr1, hm1⟩
      | error e =>
          rw [h2] at h
          dsimp only at h
          split at h
          · cases h4 : emitOp env "tool_call_failed"
                { st1 with cnt := { st1.cnt with sandboxRuns := st1.cnt.sandboxRuns + 1 } } with
            | error p => rw [h4] at h; cases h
            | ok st4 =>
                rw [h4] at h
                dsimp only at h
                cases h
                obtain ⟨hf4, hc4, ht4, ha4, hr4, hsr4, hm4⟩ := emitOp_ok h4
                simp only [hf4, hc4, ht4, ha4, hr4, hsr4, hm4]
                exact ⟨hf1, hc1, ht1, ha1, hr1, hsr1, hm1⟩
          · cases h

theorem executeToolOp_err {env : KernelEnv} {tc : ToolCallM} {st st' : KSt}
    {e : PyExc} (h : executeToolOp env tc st = .error (e, st')) :
    st'.fsm = st.fsm ∧ st'.stepCount = st.stepCount ∧ st'.totalCost = st.totalCost ∧
    st'.answer = st.answer ∧ st'.store.stepRows = st.store.stepRows ∧
    st'.store.sessionRow = st.store.sessionRow ∧
    st'.store.messages = st.store.messages := by
  simp only [executeToolOp] at h
  cases h1 : emitOp env "tool_call_start" st with
  | error p =>
      obtain ⟨pe, pst⟩ := p
      rw [h1] at h
      cases h
      obtain ⟨_, hf, hc, ht, ha, hs⟩ := emitOp_err h1
      exact ⟨hf, hc, ht, ha, by rw [hs], by rw [hs], by rw [hs]⟩
  | ok st1 =>
      rw [h1] at h
      dsimp only at h
      obtain ⟨hf1, hc1, ht1, ha1, hr1, hsr1, hm1⟩ := emitOp_ok h1
      cases h2 : env.sandboxResult st1.cnt.sandboxRuns with
      | ok r =>
          rw [h2] at h
          dsimp only at h
          cases h3 : emitOp env "tool_call_end"
              { st1 with cnt := { st1.cnt with sandboxRuns := st1.cnt.sandboxRuns + 1 } } with
          | error p =>
              obtain ⟨pe, pst⟩ := p
              rw [h3] at h
              cases h
              obtain ⟨_, hf3, hc3, ht3, ha3, hs3⟩ := emitOp_err h3
              simp only [hf3, hc3, ht3, ha3, hs3]
              exact ⟨hf1, hc1, ht1, ha1, hr1, hsr1, hm1⟩
          | ok st3 => rw [h3] at h; cases h
      | error e2 =>
          rw [h2] at h
          dsimp only at h
          split at h
          · cases h4 : emitOp env "tool_call_failed"
                { st1 with cnt := { st1.cnt with sandboxRuns := st1.cnt.sandboxRuns + 1 } } with
            | error p =>
                obtain ⟨pe, pst⟩ := p
                rw [h4] at h
                cases h
                obtain ⟨_, hf4, hc4, ht4, ha4, hs4⟩ := emitOp_err h4
                simp only [hf4, hc4, ht4, ha4, hs4]
                exact ⟨hf1, hc1, ht1, ha1, hr1, hsr1, hm1⟩
            | ok st4 => rw [h4] at h; cases h
          · cases h
            exact ⟨hf1, hc1, ht1, ha1, hr1, hsr1, hm1⟩

/-! ## Step-table bookkeeping lemmas -/

theorem costSum_cons (r : StepRow) (rows : List StepRow) :
    costSum (r :: rows) = r.costUsd.getD 0 + costSum rows := rfl

theorem costSum_append (a b : List StepRow) :
    costSum (a ++ b) = costSum a + costSum b := by
  induction a with
  | nil => simp [costSum]
  | cons r rs ih => simp only [List.cons_append, costSum_cons, ih, add_assoc]

theorem rowsNumbered_nil : rowsNumbered [] := by simp [rowsNumbered]

theorem rowsNumbered_append (rows : List StepRow) (r : StepRow)
    (h : rowsNumbered rows) (hr : r.stepNumber = rows.length + 1) :
    rowsNumbered (rows ++ [r]) := by
  simp only [rowsNumbered, List.map_append, List.map_cons, List.map_nil,
    List.length_append, List.length_cons, List.length_nil]
  rw [h, hr, List.range'_1_concat]
  simp [Nat.add_comm]

theorem numbered_lt {rows : List StepRow} (h : rowsNumbered rows) {x : StepRow}
    (hx : x ∈ rows) : x.stepNumber < rows.length + 1 := by
  have hmem : x.stepNumber ∈ rows.map StepRow.stepNumber := List.mem_map_of_mem _ hx
  rw [h] at hmem
  obtain ⟨i, hi, hxi⟩ := List.mem_range'.mp hmem
  omega

theorem update_append_last (rows : List StepRow) (r : StepRow) {n : Nat}
    (s : StepStatus) (c : ℚ) (h : rowsNumbered rows) (hr : r.stepNumber = n)
    (hn : rows.length < n) :
    (rows ++ [r]).map (fun x =>
        if x.stepNumber = n then { x with status := s, costUsd := some c } else x) =
      rows ++ [{ r with status := s, costUsd := some c }] := by
  rw [List.map_append]
  have hid : rows.map (fun x =>
      if x.stepNumber = n then { x with status := s, costUsd := some c } else x) =
      rows.map id := by
    apply List.map_congr_left
    intro x hx
    have := numbered_lt h hx
    have hne : x.stepNumber ≠ n := by omega
    simp [hne]
  rw [hid, List.map_id]
  simp [hr]

/-! ## Body-step characterization -/

theorem bodyStep_ok_inv {env : KernelEnv} {cfg : KernelConfigM} {st st' : KSt}
    (h : bodyStep env cfg st = .ok st') :
    (st'.fsm.state = .RUNNING ∨ st'.fsm.state = .DONE) ∧
    st'.stepCount = st.stepCount + 1 ∧ st'.stepCount ≤ cfg.maxSteps ∧
    (stepInvariant st → stepInvariant st') := by
  simp only [bodyStep] at h
  split at h
  · cases h
  rename_i hist st1 hg
  obtain ⟨hgf, hgc, hgt, hga, hgs⟩ := getHistoryOp_ok hg
  dsimp only at hgf hgc hgt hga hgs
  split at h
  · cases h
  rename_i hlim
  split at h
  · cases h
  rename_i hcost
  split at h
  · cases h
  rename_i st2 hw
  obtain ⟨hwf, hwc, hwt, hwa, hwr, hwsr, hwm⟩ := writeStepStartOp_ok hw
  split at h
  · cases h
  rename_i resp st3 hro
  obtain ⟨hrf, hrc, hrt, hra, hrs⟩ := routerCallOp_ok hro
  have hc3 : st3.stepCount = st.stepCount + 1 := by rw [hrc, hwc, hgc]
  have hle : st.stepCount + 1 ≤ cfg.maxSteps := by
    rw [hgc] at hlim
    omega
  have hrows3 : st3.store.stepRows = st.store.stepRows ++
      [{ stepNumber := st1.stepCount, stepType := .modelCall,
         status := .started, costUsd := none }] := by
    rw [hrs, hwr, hgs]
  have ht3 : st3.totalCost = st.totalCost := by rw [hrt, hwt, hgt]
  split at h
  -- final_answer branch
  · split at h
    · cases h
    rename_i st4 hwe
    obtain ⟨hef, hec, het, hea, her, hesr, hem⟩ := writeStepEndOp_ok hwe
    dsimp only at hef hec het hea her hesr hem
    split at h
    · cases h
    rename_i st5 ham
    obtain ⟨haf, hac, hat, haa, har, hasr, hae⟩ := appendMessageOp_ok ham
    dsimp only at haf hac hat haa har hasr hae
    obtain ⟨htf, htc, htt, hta, hts, htcnt⟩ := transitionOp_ok h
    have hc' : st'.stepCount = st.stepCount + 1 := by rw [htc, hac, hec, hc3]
    refine ⟨Or.inr htf, hc', by rw [hc']; exact hle, ?_⟩
    rintro ⟨hnum, hcnt, hcost'⟩
    rw [hcnt] at hc3 hle
    have hrows4 : st4.store.stepRows = st.store.stepRows ++
        [{ stepNumber := st1.stepCount, stepType := .modelCall,
           status := .completed,
           costUsd := some (env.stepCost resp.inputTokens resp.outputTokens) }] := by
      rw [her, hrows3]
      have hlen : st1.stepCount = st.store.stepRows.length + 1 := by rw [hgc, hcnt]
      rw [hc3]
      exact update_append_last _ _ _ _ hnum hlen (by omega)
    refine ⟨?_, ?_, ?_⟩
    · rw [hts, har, hrows4]
      exact rowsNumbered_append _ _ hnum (by simp [hgc, hcnt])
    · rw [hc', hts, har, hrows4]
      simp [hcnt]
    · rw [htt, hat, het, ht3, hts, har, hrows4, costSum_append, hcost']
      simp [costSum]
  -- tool_call branch
  · split at h
    · cases h
    rename_i tc htc2
    split at h
    · cases h
    rename_i hhas
    split at h
    · cases h
    rename_i hperm
    split at h
    · cases h
    rename_i st4 hwe
    obtain ⟨hef, hec, het, hea, her, hesr, hem⟩ := writeStepEndOp_ok hwe
    dsimp only at hef hec het hea her hesr hem
    split at h
    · cases h
    rename_i st5 ham
    obtain ⟨haf, hac, hat, haa, har, hasr, hae⟩ := appendMessageOp_ok ham
    split at h
    · cases h
    rename_i st6 htr1
    obtain ⟨h1f, h1c, h1t, h1a, h1s, h1cnt⟩ := transitionOp_ok htr1
    split at h
    · cases h
    rename_i st7 hsy1
    obtain ⟨h2f, h2c, h2t, h2a, h2r, h2m, h2e, h2sr⟩ := syncSessionOp_ok hsy1
    split at h
    · cases h
    rename_i tr st8 hex
    obtain ⟨h3f, h3c, h3t, h3a, h3r, h3sr, h3m⟩ := executeToolOp_ok hex
    split at h
    · cases h
    rename_i st9 htr2
    obtain ⟨h4f, h4c, h4t, h4a, h4s, h4cnt⟩ := transitionOp_ok htr2
    split at h
    · cases h
    rename_i st10 hsy2
    obtain ⟨h5f, h5c, h5t, h5a, h5r, h5m, h5e, h5sr⟩ := syncSessionOp_ok hsy2
    obtain ⟨h6f, h6c, h6t, h6a, h6r, h6sr, h6e⟩ := appendMessageOp_ok h
    have hfsm' : st'.fsm.state = .RUNNING := by rw [h6f, h5f, h4f]
    have hc' : st'.stepCount = st.stepCount + 1 := by
      rw [h6c, h5c, h4c, h3c, h2c, h1c, hac, hec, hc3]
    have hrows' : st'.store.stepRows = st4.store.stepRows := by
      rw [h6r, h5r, h4s, h3r, h2r, h1s, har]
    have ht' : st'.totalCost = st4.totalCost := by
      rw [h6t, h5t, h4t, h3t, h2t, h1t, hat]
    refine ⟨Or.inl hfsm', hc', by rw [hc']; exact hle, ?_⟩
    rintro ⟨hnum, hcnt, hcost'⟩
    rw [hcnt] at hc3 hle
    have hrows4 : st4.store.stepRows = st.store.stepRows ++
        [{ stepNumber := st1.stepCount, stepType := .modelCall,
           status := .completed,
           costUsd := some (env.stepCost resp.inputTokens resp.outputTokens) }] := by
      rw [her, hrows3]
      have hlen : st1.stepCount = st.store.stepRows.length + 1 := by rw [hgc, hcnt]
      rw [hc3]
      exact update_append_last _ _ _ _ hnum hlen (by omega)
    refine ⟨?_, ?_, ?_⟩
    · rw [hrows', hrows4]
      exact rowsNumbered_append _ _ hnum (by simp [hgc, hcnt])
    · rw [hc', hrows', hrows4]
      simp [hcnt]
    · rw [ht', het, ht3, hrows', hrows4, costSum_append, hcost']
      simp [costSum]

theorem bodyStep_err_inv {env : KernelEnv} {cfg : KernelConfigM} {st st' : KSt}
    {e : PyExc} (h : bodyStep env cfg st = .error (e, st'))
    (hfsm : st.fsm.state = .RUNNING) :
    st'.fsm.state = .RUNNING ∨ st'.fsm.state = .WAITING := by
  simp only [bodyStep] at h
  split at h
  · rename_i p hg
    cases h
    obtain ⟨_, hf, _, _, _, _⟩ := getHistoryOp_err hg
    dsimp only at hf
    exact Or.inl (by rw [hf]; exact hfsm)
  rename_i hist st1 hg
  obtain ⟨hgf, hgc, hgt, hga, hgs⟩ := getHistoryOp_ok hg
  dsimp only at hgf hgc hgt hga hgs
  have hf1 : st1.fsm.state = .RUNNING := by rw [hgf]; exact hfsm
  split at h
  · cases h
    exact Or.inl hf1
  split at h
  · cases h
    exact Or.inl hf1
  split at h
  · rename_i p hw
    cases h
    obtain ⟨_, hf, _, _, _, _⟩ := writeStepStartOp_err hw
    exact Or.inl (by rw [hf]; exact hf1)
  rename_i st2 hw
  obtain ⟨hwf, hwc, hwt, hwa, hwr, hwsr, hwm⟩ := writeStepStartOp_ok hw
  have hf2 : st2.fsm.state = .RUNNING := by rw [hwf]; exact hf1
  split at h
  · rename_i p hro
    cases h
    obtain ⟨hf, _, _, _, _⟩ := routerCallOp_err hro
    exact Or.inl (by rw [hf]; exact hf2)
  rename_i resp st3 hro
  obtain ⟨hrf, hrc, hrt, hra, hrs⟩ := routerCallOp_ok hro
  have hf3 : st3.fsm.state = .RUNNING := by rw [hrf]; exact hf2
  split at h
  -- final_answer branch
  · split at h
    · rename_i p hwe
      cases h
      obtain ⟨_, hf, _, _, _, _⟩ := writeStepEndOp_err hwe
      dsimp only at hf
      exact Or.inl (by rw [hf]; exact hf3)
    rename_i st4 hwe
    obtain ⟨hef, hec, het, hea, her, hesr, hem⟩ := writeStepEndOp_ok hwe
    dsimp only at hef
    have hf4 : st4.fsm.state = .RUNNING := by rw [hef]; exact hf3
    split at h
    · rename_i p ham
      cases h
      obtain ⟨_, hf, _, _, _, _⟩ := appendMessageOp_err ham
      dsimp only at hf
      exact Or.inl (by rw [hf]; exact hf4)
    rename_i st5 ham
    obtain ⟨haf, _, _, _, _, _, _⟩ := appendMessageOp_ok ham
    dsimp only at haf
    obtain ⟨_, heq⟩ := transitionOp_err h
    rw [heq]
    exact Or.inl (by rw [haf]; exact hf4)
  -- tool_call branch
  · split at h
    · cases h
      exact Or.inl hf3
    rename_i tc htc2
    split at h
    · cases h
      exact Or.inl hf3
    rename_i hhas
    split at h
    · cases h
      exact Or.inl hf3
    rename_i hperm
    split at h
    · rename_i p hwe
      cases h
      obtain ⟨_, hf, _, _, _, _⟩ := writeStepEndOp_err hwe
      dsimp only at hf
      exact Or.inl (by rw [hf]; exact hf3)
    rename_i st4 hwe
    obtain ⟨hef, _, _, _, _, _, _⟩ := writeStepEndOp_ok hwe
    dsimp only at hef
    have hf4 : st4.fsm.state = .RUNNING := by rw [hef]; exact hf3
    split at h
    · rename_i p ham
      cases h
      obtain ⟨_, hf, _, _, _, _⟩ := appendMessageOp_err ham
      exact Or.inl (by rw [hf]; exact hf4)
    rename_i st5 ham
    obtain ⟨haf, _, _, _, _, _, _⟩ := appendMessageOp_ok ham
    have hf5 : st5.fsm.state = .RUNNING := by rw [haf]; exact hf4
    split at h
    · rename_i p htr1
      cases h
      obtain ⟨_, heq⟩ := transitionOp_err htr1
      rw [heq]
      exact Or.inl hf5
    rename_i st6 htr1
    obtain ⟨h1f, _, _, _, _, _⟩ := transitionOp_ok htr1
    split at h
    · rename_i p hsy1
      cases h
      obtain ⟨_, hf, _, _, _, _⟩ := syncSessionOp_err hsy1
      exact Or.inr (by rw [hf]; exact h1f)
    rename_i st7 hsy1
    obtain ⟨h2f, _, _, _, _, _, _, _⟩ := syncSessionOp_ok hsy1
    have hf7 : st7.fsm.state = .WAITING := by rw [h2f]; exact h1f
    split at h
    · rename_i p hex
      cases h
      obtain ⟨hf, _, _, _, _, _, _⟩ := executeToolOp_err hex
      exact Or.inr (by rw [hf]; exact hf7)
    rename_i tr st8 hex
    obtain ⟨h3f, _, _, _, _, _, _⟩ := executeToolOp_ok hex
    have hf8 : st8.fsm.state = .WAITING := by rw [h3f]; exact hf7
    split at h
    · rename_i p htr2
      cases h
      obtain ⟨_, heq⟩ := transitionOp_err htr2
      rw [heq]
      exact Or.inr hf8
    rename_i st9 htr2
    obtain ⟨h4f, _, _, _, _, _⟩ := transitionOp_ok htr2
    split at h
    · rename_i p hsy2
      cases h
      obtain ⟨_, hf, _, _, _, _⟩ := syncSessionOp_err hsy2
      exact Or.inl (by rw [hf]; exact h4f)
    rename_i st10 hsy2
    obtain ⟨h5f, _, _, _, _, _, _, _⟩ := syncSessionOp_ok hsy2
    have hf10 : st10.fsm.state = .RUNNING := by rw [h5f]; exact h4f
    obtain ⟨he, hf, _, _, _, hs⟩ := appendMessageOp_err h
    exact Or.inl (by rw [hf]; exact hf10)

theorem kernelLoop_spec (env : KernelEnv) (cfg : KernelConfigM) :
    ∀ (fuel : Nat) (st : KSt),
      st.fsm.state = .RUNNING → st.stepCount + fuel = cfg.maxSteps + 1 →
      st.stepCount ≤ cfg.maxSteps →
      (∀ st', kernelLoop env cfg fuel st = (st', none) →
        st'.fsm.state = .DONE ∧ (stepInvariant st → stepInvariant st')) ∧
      (∀ st' e, kernelLoop env cfg fuel st = (st', some e) →
        st'.fsm.state = .RUNNING ∨ st'.fsm.state = .WAITING) := by
  intro fuel
  induction fuel with
  | zero =>
      intro st hf hsum hle
      exfalso
      omega
  | succ n ih =>
      intro st hf hsum hle
      have hterm : st.fsm.state.isTerminal = false := by rw [hf]; rfl
      constructor
      · intro st' hrun
        rw [kernelLoop] at hrun
        simp only [hterm, Bool.false_eq_true, if_false] at hrun
        cases hb : bodyStep env cfg st with
        | error p =>
            obtain ⟨e1, st1⟩ := p
            rw [hb] at hrun
            simp at hrun
        | ok st1 =>
            rw [hb] at hrun
            dsimp only at hrun
            obtain ⟨hor, hc1, hle1, hinv1⟩ := bodyStep_ok_inv hb
            rcases hor with hrun1 | hdone
            · have hres := (ih st1 hrun1 (by omega) hle1).1 st' hrun
              exact ⟨hres.1, fun hv => hres.2 (hinv1 hv)⟩
            · cases n with
              | zero => omega
              | succ m =>
                  rw [kernelLoop] at hrun
                  have ht1 : st1.fsm.state.isTerminal = true := by rw [hdone]; rfl
                  simp only [ht1, if_true] at hrun
                  injection hrun with h1 h2
                  rw [← h1]
                  exact ⟨hdone, fun hv => hinv1 hv⟩
      · intro st' e hrun
        rw [kernelLoop] at hrun
        simp only [hterm, Bool.false_eq_true, if_false] at hrun
        cases hb : bodyStep env cfg st with
        | error p =>
            obtain ⟨e1, st1⟩ := p
            rw [hb] at hrun
            injection hrun with h1 h2
            rw [← h1]
            exact bodyStep_err_inv hb hf
        | ok st1 =>
            rw [hb] at hrun
            dsimp only at hrun
            obtain ⟨hor, hc1, hle1, _⟩ := bodyStep_ok_inv hb
            rcases hor with hrun1 | hdone
            · exact (ih st1 hrun1 (by omega) hle1).2 st' e hrun
            · cases n with
              | zero => omega
              | succ m =>
                  rw [kernelLoop] at hrun
                  have ht1 : st1.fsm.state.isTerminal = true := by rw [hdone]; rfl
                  simp only [ht1, if_true] at hrun
                  cases hrun

/-! ## Teardown and handler-cascade lemmas -/

theorem teardown_ok_or_awf (env : KernelEnv) (st : KSt) (errT errM : Option String) :
    (∃ r, (teardown env st errT errM).2 = .ok r) ∨
    (teardown env st errT errM).2 = .error .auditWriteFailure := by
  simp only [teardown]
  cases h1 : emitOp env "session_end" st with
  | error p =>
      obtain ⟨e, st1⟩ := p
      obtain ⟨he, _, _, _, _, _⟩ := emitOp_err h1
      right
      dsimp only
      rw [he]
  | ok st1 =>
      dsimp only
      cases h2 : syncSessionOp env st1.fsm st1.stepCount st1.totalCost errT errM st1 with
      | error p =>
          obtain ⟨e, st2⟩ := p
          obtain ⟨he, _, _, _, _, _⟩ := syncSessionOp_err h2
          right
          dsimp only
          rw [he]
      | ok st2 => exact Or.inl ⟨_, rfl⟩

theorem teardown_ok_inv (env : KernelEnv) (st : KSt) (errT errM : Option String)
    {res : SessionResultM} (h : (teardown env st errT errM).2 = .ok res) :
    (teardown env st errT errM).1.store.stepRows = st.store.stepRows ∧
    (teardown env st errT errM).1.store.sessionRow = st.store.sessionRow.map (fun _ =>
      { status := st.fsm.state, totalSteps := st.stepCount,
        totalCostUsd := round6 st.totalCost, errorType := errT, errorMsg := errM }) := by
  simp only [teardown] at h ⊢
  cases h1 : emitOp env "session_end" st with
  | error p =>
      obtain ⟨e, st1⟩ := p
      rw [h1] at h
      dsimp only at h
      cases h
  | ok st1 =>
      rw [h1] at h
      dsimp only at h ⊢
      obtain ⟨h1f, h1c, h1t, _, h1r, h1sr, _⟩ := emitOp_ok h1
      cases h2 : syncSessionOp env st1.fsm st1.stepCount st1.totalCost errT errM st1 with
      | error p =>
          obtain ⟨e, st2⟩ := p
          rw [h2] at h
          dsimp only at h
          cases h
      | ok st2 =>
          dsimp only
          obtain ⟨h2f, h2c, h2t, _, h2r, h2m, h2e, h2sr⟩ := syncSessionOp_ok h2
          constructor
          · rw [h2r, h1r]
          · rw [h2sr, h1sr, h1f, h1c, h1t]

theorem failTransition_spec (st : KSt) (hne : st.fsm.state ≠ .IDLE) :
    ∃ st2, failTransition st = .ok st2 ∧
      (st2.fsm.state = .FAILED ∨ (st.fsm.state.isTerminal = true ∧ st2 = st)) ∧
      st2.stepCount = st.stepCount ∧ st2.totalCost = st.totalCost ∧
      st2.store = st.store ∧ st2.cnt = st.cnt := by
  by_cases ht : st.fsm.state.isTerminal = true
  · exact ⟨st, by simp [failTransition, ht], Or.inr ⟨ht, rfl⟩, rfl, rfl, rfl, rfl⟩
  · have hmem : SessionStatus.FAILED ∈ validTargets st.fsm.state := by
      cases hstate : st.fsm.state <;>
        simp [hstate, SessionStatus.isTerminal] at hne ht ⊢ <;>
        simp [validTargets]
    refine ⟨{ st with fsm := { state := .FAILED, history := st.fsm.history ++ [(st.fsm.state, .FAILED)] } }, ?_, Or.inl rfl, rfl, rfl, rfl, rfl⟩
    simp [failTransition, ht, transitionOp, SessionFSM.transition, hmem]

theorem finishRun_ok_or_awf (env : KernelEnv) (st : KSt) (exc : Option PyExc)
    (hne : st.fsm.state ≠ .IDLE) :
    (∃ r, (finishRun env st exc).2 = .ok r) ∨
    (finishRun env st exc).2 = .error .auditWriteFailure := by
  cases exc with
  | none =>
      simp only [finishRun]
      exact teardown_ok_or_awf env st none none
  | some e =>
      by_cases hAwf : e = .auditWriteFailure
      · subst hAwf
        simp only [finishRun, if_true]
        obtain ⟨st2, hft, _, _, _, _, _⟩ := failTransition_spec st hne
        rw [hft]
        dsimp only
        cases h2 : syncSessionOp env st2.fsm st2.stepCount st2.totalCost
            (some "AuditWriteFailureError")
            (some "Audit write failed — session terminated") st2 with
        | error p =>
            obtain ⟨e3, st3⟩ := p
            obtain ⟨he, _, _, _, _, _⟩ := syncSessionOp_err h2
            right
            dsimp only
            rw [he]
        | ok st3 => exact Or.inr rfl
      · simp only [finishRun]
        rw [if_neg hAwf]
        cases h1 : emitOp env (handledEventName e) st with
        | error p =>
            obtain ⟨e2, st2⟩ := p
            obtain ⟨he, _, _, _, _, _⟩ := emitOp_err h1
            right
            dsimp only
            rw [he]
        | ok st2 =>
            dsimp only
            obtain ⟨h1f, _, _, _, _, _, _⟩ := emitOp_ok h1
            have hne2 : st2.fsm.state ≠ .IDLE := by rw [h1f]; exact hne
            obtain ⟨st3, hft, _, _, _, _, _⟩ := failTransition_spec st2 hne2
            rw [hft]
            dsimp only
            exact teardown_ok_or_awf env st3 _ _

theorem finishRun_some_row (env : KernelEnv) (st : KSt) (e : PyExc)
    {res : SessionResultM} {row : SessionRow}
    (hfsm : st.fsm.state = .RUNNING ∨ st.fsm.state = .WAITING)
    (hok : (finishRun env st (some e)).2 = .ok res)
    (hrow : (finishRun env st (some e)).1.store.sessionRow = some row) :
    row.status = .FAILED := by
  have hne : st.fsm.state ≠ .IDLE := by
    rcases hfsm with h | h <;> rw [h] <;> intro hc <;> cases hc
  by_cases hAwf : e = .auditWriteFailure
  · subst hAwf
    simp only [finishRun, if_true] at hok
    obtain ⟨st2, hft, _, _, _, _, _⟩ := failTransition_spec st hne
    rw [hft] at hok
    dsimp only at hok
    cases h2 : syncSessionOp env st2.fsm st2.stepCount st2.totalCost
        (some "AuditWriteFailureError")
        (some "Audit write failed — session terminated") st2 with
    | error p =>
        obtain ⟨e3, st3⟩ := p
        rw [h2] at hok
        dsimp only at hok
        cases hok
    | ok st3 =>
        rw [h2] at hok
        dsimp only at hok
        cases hok
  · simp only [finishRun] at hok hrow
    rw [if_neg hAwf] at hok hrow
    cases h1 : emitOp env (handledEventName e) st with
    | error p =>
        obtain ⟨e2, st2⟩ := p
        rw [h1] at hok
        dsimp only at hok
        cases hok
    | ok st2 =>
        rw [h1] at hok hrow
        dsimp only at hok hrow
        obtain ⟨h1f, _, _, _, _, _, _⟩ := emitOp_ok h1
        have hne2 : st2.fsm.state ≠ .IDLE := by rw [h1f]; exact hne
        obtain ⟨st3, hft, hst3, _, _, _, _⟩ := failTransition_spec st2 hne2
        have hF : st3.fsm.state = .FAILED := by
          rcases hst3 with h | ⟨hterm, _⟩
          · exact h
          · exfalso
            rw [h1f] at hterm
            rcases hfsm with h | h <;> rw [h] at hterm <;> cases hterm
        rw [hft] at hok hrow
        dsimp only at hok hrow
        obtain ⟨_, hsr⟩ := teardown_ok_inv env st3 (some e.pyName)
          (some (handledErrMsg e)) hok
        rw [hsr] at hrow
        rcases hm : st3.store.sessionRow with _ | r0
        · rw [hm] at hrow
          cases hrow
        · rw [hm] at hrow
          simp only [Option.map_some'] at hrow
          cases hrow
          exact hF

theorem emitOp_histReads {env : KernelEnv} {t : String} {st st' : KSt}
    (h : emitOp env t st = .ok st') : st'.cnt.histReads = st.cnt.histReads := by
  simp only [emitOp] at h
  split at h
  · cases h
  · cases h; rfl

theorem setConvOp_histReads {env : KernelEnv} {msgs : List MessageM} {st st' : KSt}
    (h : setConvOp env msgs st = .ok st') : st'.cnt.histReads = st.cnt.histReads := by
  simp only [setConvOp] at h
  split at h
  · cases h
  · cases h; rfl

theorem getHistoryOp_ok_histReads {env : KernelEnv} {st st' : KSt} {hist : List MessageM}
    (h : getHistoryOp env st = .ok (hist, st')) :
    st'.cnt.histReads = st.cnt.histReads + 1 := by
  simp only [getHistoryOp] at h
  split at h
  · cases h
  · cases h; rfl

theorem getHistoryOp_err_fails {env : KernelEnv} {st st' : KSt} {e : PyExc}
    (h : getHistoryOp env st = .error (e, st')) :
    env.histReadFails st.cnt.histReads = true := by
  simp only [getHistoryOp] at h
  split at h
  · rename_i hc
    exact hc
  · cases h

theorem syncSessionOp_histReads {env : KernelEnv} {fsm : SessionFSM} {steps : Nat}
    {cost : ℚ} {errT errM : Option String} {st st' : KSt}
    (h : syncSessionOp env fsm steps cost errT errM st = .ok st') :
    st'.cnt.histReads = st.cnt.histReads := by
  simp only [syncSessionOp] at h
  split at h
  · cases h
  · cases h; rfl

theorem appendMessageOp_histReads {env : KernelEnv} {msg : MessageM} {st st' : KSt}
    (h : appendMessageOp env msg st = .ok st') :
    st'.cnt.histReads = st.cnt.histReads + 1 := by
  simp only [appendMessageOp] at h
  cases hg : getHistoryOp env st with
  | error p =>
      rw [hg] at h
      dsimp only at h
      cases h
  | ok p =>
      obtain ⟨hist, st1⟩ := p
      rw [hg] at h
      dsimp only at h
      rw [setConvOp_histReads h, getHistoryOp_ok_histReads hg]

/-- A failing `append_message` is either the conversation read failing
(`MemoryCorruption`, at the current read count) or the write-back failing
(`AuditWriteFailure`). -/
theorem appendMessageOp_err_cases {env : KernelEnv} {msg : MessageM} {st st' : KSt}
    {e : PyExc} (h : appendMessageOp env msg st = .error (e, st')) :
    (e = .memoryCorruption ∧ env.histReadFails st.cnt.histReads = true) ∨
    e = .auditWriteFailure := by
  simp only [appendMessageOp] at h
  cases hg : getHistoryOp env st with
  | error p =>
      obtain ⟨e1, st1⟩ := p
      rw [hg] at h
      dsimp only at h
      cases h
      exact Or.inl ⟨(getHistoryOp_err hg).1, getHistoryOp_err_fails hg⟩
  | ok p =>
      obtain ⟨hist, st1⟩ := p
      rw [hg] at h
      dsimp only at h
      exact Or.inr (setConvOp_err h).1

theorem transitionOp_ok_of_mem {t : SessionStatus} {st : KSt}
    (hmem : t ∈ validTargets st.fsm.state) :
    ∃ st', transitionOp t st = .ok st' := by
  simp only [transitionOp, SessionFSM.transition]
  rw [if_pos hmem]
  exact ⟨_, rfl⟩

/-- The startup sequence of `runKernel` either reaches the main loop in a
RUNNING state with an empty step table and zero counters, or raises
`AuditWriteFailure` (a failing startup write), or raises `MemoryCorruption`
(one of the two startup conversation reads failed). -/
theorem runKernel_split (env : KernelEnv) (cfg : KernelConfigM) (task : String) :
    (∃ st0 : KSt,
      runKernel env cfg task =
        finishRun env (kernelLoop env cfg (cfg.maxSteps + 1) st0).1
          (kernelLoop env cfg (cfg.maxSteps + 1) st0).2 ∧
      st0.fsm.state = .RUNNING ∧ st0.stepCount = 0 ∧ st0.totalCost = 0 ∧
      st0.store.stepRows = []) ∨
    (runKernel env cfg task).2 = .error .auditWriteFailure ∨
    ((runKernel env cfg task).2 = .error .memoryCorruption ∧
      (env.histReadFails 0 = true ∨ env.histReadFails 1 = true)) := by
  obtain ⟨stF, res, hmain⟩ : ∃ stF res, runKernel env cfg task = (stF, res) :=
    ⟨(runKernel env cfg task).1, (runKernel env cfg task).2, rfl⟩
  rw [hmain]
  simp only [runKernel] at hmain
  split at hmain
  · -- `create_session` write failed: re-raised as AuditWriteFailure
    cases hmain
    exact Or.inr (Or.inl rfl)
  · split at hmain
    · -- the injection-scan `emit_event` failed
      rename_i e1 st1 heq
      cases hmain
      split at heq
      · cases heq
      · exact Or.inr (Or.inl (by rw [(emitOp_err heq).1]))
    · rename_i stA heq
      have hA : stA.fsm = SessionFSM.init ∧ stA.stepCount = 0 ∧ stA.totalCost = 0 ∧
          stA.store.stepRows = [] ∧ stA.cnt.histReads = 0 := by
        split at heq
        · cases heq
          exact ⟨rfl, rfl, rfl, rfl, rfl⟩
        · obtain ⟨hf, hsc, hco, _, hrows, _, _⟩ := emitOp_ok heq
          have hhr := emitOp_histReads heq
          exact ⟨hf.trans rfl, hsc.trans rfl, hco.trans rfl, hrows.trans rfl,
            hhr.trans rfl⟩
      obtain ⟨hAf, hAsc, hAco, hArows, hAhr⟩ := hA
      split at hmain
      · -- the `session_start` emit failed
        rename_i e2 st2 heq2
        cases hmain
        exact Or.inr (Or.inl (by rw [(emitOp_err heq2).1]))
      · rename_i stB heq2
        obtain ⟨hBf, hBsc, hBco, _, hBrows, _, _⟩ := emitOp_ok heq2
        have hBhr := emitOp_histReads heq2
        split at hmain
        · -- IDLE → RUNNING cannot fail
          rename_i e3 st3 heq3
          obtain ⟨stX, hok⟩ := transitionOp_ok_of_mem
            (show SessionStatus.RUNNING ∈ validTargets stB.fsm.state by
              rw [hBf, hAf]; decide)
          rw [hok] at heq3
          cases heq3
        · rename_i stC heq3
          obtain ⟨hCst, hCsc, hCco, _, hCstore, hCcnt⟩ := transitionOp_ok heq3
          split at hmain
          · -- the startup `_sync_session` failed
            rename_i e4 st4 heq4
            cases hmain
            exact Or.inr (Or.inl (by rw [(syncSessionOp_err heq4).1]))
          · rename_i stD heq4
            obtain ⟨hDf, hDsc, hDco, _, hDrows, _, _, _⟩ := syncSessionOp_ok heq4
            have hDhr0 : stD.cnt.histReads = 0 := by
              rw [syncSessionOp_histReads heq4, hCcnt, hBhr, hAhr]
            split at hmain
            · -- appending the user message failed: read (MC) or write (AWF)
              rename_i e5 st5 heq5
              cases hmain
              rcases appendMessageOp_err_cases heq5 with ⟨he, hfail⟩ | he
              · refine Or.inr (Or.inr ⟨by rw [he], Or.inl ?_⟩)
                rw [hDhr0] at hfail
                exact hfail
              · exact Or.inr (Or.inl (by rw [he]))
            · rename_i stE heq5
              obtain ⟨hEf, hEsc, hEco, _, hErows, _, _⟩ := appendMessageOp_ok heq5
              have hEhr : stE.cnt.histReads = 1 := by
                rw [appendMessageOp_histReads heq5, hDhr0]
              split at hmain
              · -- the context-build conversation read failed
                rename_i e6 st6 heq6
                cases hmain
                have hfail := getHistoryOp_err_fails heq6
                rw [hEhr] at hfail
                exact Or.inr (Or.inr ⟨by rw [(getHistoryOp_err heq6).1], Or.inr hfail⟩)
              · rename_i hist stG heq6
                obtain ⟨hGf, hGsc, hGco, _, hGstore⟩ := getHistoryOp_ok heq6
                refine Or.inl ⟨stG, hmain.symm, ?_, ?_, ?_, ?_⟩
                · rw [hGf, hEf, hDf]
                  exact hCst
                · rw [hGsc, hEsc, hDsc, hCsc, hBsc, hAsc]
                · rw [hGco, hEco, hDco, hCco, hBco, hAco]
                · rw [hGstore, hErows, hDrows, hCstore, hBrows, hArows]

/-! ## C3: what escapes from `run` -/

/-- C3 (amended).  `AgentKernel.run` either returns a `SessionResult` or
raises `AuditWriteFailure` — which always propagates — or raises
`MemoryCorruption`, which escapes exactly when one of the two startup
conversation reads (inside `append_message` and the first
execution-context build, both before the `try` block) hits a storage
error.  The original claim admits only `AuditWriteFailure`. -/
theorem claim_C3 (env : KernelEnv) (cfg : KernelConfigM) (task : String) :
    (∃ r, (runKernel env cfg task).2 = .ok r) ∨
    (runKernel env cfg task).2 = .error .auditWriteFailure ∨
    ((runKernel env cfg task).2 = .error .memoryCorruption ∧
      (env.histReadFails 0 = true ∨ env.histReadFails 1 = true)) := by
  rcases runKernel_split env cfg task with ⟨st0, heq, hRun, hsc0, hco0, hrows0⟩ | h | h
  · obtain ⟨hnone, hsome⟩ := kernelLoop_spec env cfg (cfg.maxSteps + 1) st0 hRun
      (by omega) (by omega)
    cases hkl : kernelLoop env cfg (cfg.maxSteps + 1) st0 with
    | mk st' opt =>
      rw [hkl] at heq
      dsimp only at heq
      have hne : st'.fsm.state ≠ .IDLE := by
        cases opt with
        | none =>
            have hD := (hnone st' hkl).1
            rw [hD]
            intro hc
            cases hc
        | some e =>
            rcases hsome st' e hkl with h1 | h1 <;> rw [h1] <;> intro hc <;> cases hc
      rcases finishRun_ok_or_awf env st' opt hne with ⟨r, hr⟩ | hr
      · exact Or.inl ⟨r, by rw [heq]; exact hr⟩
      · exact Or.inr (Or.inl (by rw [heq]; exact hr))
  · exact Or.inr (Or.inl h)
  · exact Or.inr (Or.inr h)

/-- C3, original form, is false: with every conversation read failing, `run`
raises `MemoryCorruption` to its caller, which is not `AuditWriteFailure`. -/
theorem claim_C3_counterexample :
    (runKernel readFailEnv cfgOne "task").2 = .error .memoryCorruption ∧
    PyExc.memoryCorruption ≠ PyExc.auditWriteFailure :=
  ⟨rfl, by decide⟩

/-! ## C4: the AuditWriteFailure handler -/

theorem syncSessionOp_ok_of (env : KernelEnv) (fsm : SessionFSM) (steps : Nat)
    (cost : ℚ) (errT errM : Option String) (st : KSt)
    (h : env.sessionUpdateFails st.cnt.sessionUpdates = false) :
    ∃ st', syncSessionOp env fsm steps cost errT errM st = .ok st' := by
  simp only [syncSessionOp, h, Bool.false_eq_true, if_false]
  exact ⟨_, rfl⟩

/-- C4 (amended).  When the main loop raises `AuditWriteFailure`, the handler
transitions the FSM to FAILED, syncs the session row (status FAILED, error
columns fixed) and re-raises — but, diverging from the spec, it writes **no**
`audit_write_failure_halt` audit event: the event log is left unchanged (the
handler only logs to the process logger). -/
theorem claim_C4 (env : KernelEnv) (st : KSt)
    (hfsm : st.fsm.state = .RUNNING ∨ st.fsm.state = .WAITING)
    (hsync : env.sessionUpdateFails st.cnt.sessionUpdates = false) :
    ∃ st', finishRun env st (some .auditWriteFailure) =
        (st', .error .auditWriteFailure) ∧
      st'.store.events = st.store.events ∧
      st'.fsm.state = .FAILED ∧
      st'.store.sessionRow = st.store.sessionRow.map (fun _ =>
        { status := SessionStatus.FAILED, totalSteps := st.stepCount,
          totalCostUsd := round6 st.totalCost,
          errorType := some "AuditWriteFailureError",
          errorMsg := some "Audit write failed — session terminated" }) := by
  have hne : st.fsm.state ≠ .IDLE := by
    rcases hfsm with h | h <;> rw [h] <;> intro hc <;> cases hc
  obtain ⟨st2, hft, hst2, hsc2, hco2, hstore2, hcnt2⟩ := failTransition_spec st hne
  have hF : st2.fsm.state = .FAILED := by
    rcases hst2 with h | ⟨hterm', _⟩
    · exact h
    · exfalso
      rcases hfsm with h | h <;> rw [h] at hterm' <;> cases hterm'
  have hbit : env.sessionUpdateFails st2.cnt.sessionUpdates = false := by
    rw [hcnt2]
    exact hsync
  obtain ⟨st3, hsy⟩ := syncSessionOp_ok_of env st2.fsm st2.stepCount st2.totalCost
    (some "AuditWriteFailureError")
    (some "Audit write failed — session terminated") st2 hbit
  obtain ⟨hf3, hsc3, hco3, _, _, _, hev3, hsr3⟩ := syncSessionOp_ok hsy
  refine ⟨st3, ?_, ?_, ?_, ?_⟩
  · simp only [finishRun, if_true, hft, hsy]
  · rw [hev3, hstore2]
  · rw [hf3]
    exact hF
  · rw [hsr3, hF, hsc2, hco2, hstore2]

/-- C4's claimed audit event does not happen: a run whose first
`write_step_start` fails propagates `AuditWriteFailure`, yet its event log
contains only `session_start` — no `audit_write_failure_halt` was emitted. -/
theorem claim_C4_counterexample :
    (runKernel stepStartFailEnv cfgOne "task").2 = .error .auditWriteFailure ∧
    (runKernel stepStartFailEnv cfgOne "task").1.store.events =
      ["session_start"] ∧
    "audit_write_failure_halt" ∉
      (runKernel stepStartFailEnv cfgOne "task").1.store.events :=
  ⟨rfl, rfl, by decide⟩

theorem claim_C4_witness :
    (stRunning.fsm.state = .RUNNING ∨ stRunning.fsm.state = .WAITING) ∧
    baseEnv.sessionUpdateFails stRunning.cnt.sessionUpdates = false ∧
    (∃ st', finishRun baseEnv stRunning (some .auditWriteFailure) =
        (st', .error .auditWriteFailure) ∧
      st'.store.events = stRunning.store.events ∧
      st'.fsm.state = .FAILED ∧
      st'.store.sessionRow = stRunning.store.sessionRow.map (fun _ =>
        { status := SessionStatus.FAILED, totalSteps := stRunning.stepCount,
          totalCostUsd := round6 stRunning.totalCost,
          errorType := some "AuditWriteFailureError",
          errorMsg := some "Audit write failed — session terminated" })) :=
  ⟨Or.inl rfl, rfl, claim_C4 baseEnv stRunning (Or.inl rfl) rfl⟩

/-! ## C5: session totals against the step table -/

/-- C5 (amended).  For a run that returns a result and whose session row ends
DONE, the row's `total_steps` equals the number of step rows written and its
`total_cost_usd` equals `round(sum of the rows' cost_usd, 6)`.  The original
unrestricted claim fails on step-limit aborts, where `step_count` is
incremented before the limit check and before `write_step_start`, making
`total_steps` exceed the row count by one. -/
theorem claim_C5 (env : KernelEnv) (cfg : KernelConfigM) (task : String)
    {res : SessionResultM} {row : SessionRow}
    (hok : (runKernel env cfg task).2 = .ok res)
    (hrow : (runKernel env cfg task).1.store.sessionRow = some row)
    (hdone : row.status = .DONE) :
    row.totalSteps = (runKernel env cfg task).1.store.stepRows.length ∧
    row.totalCostUsd = round6 (costSum (runKernel env cfg task).1.store.stepRows) := by
  rcases runKernel_split env cfg task with ⟨st0, heq, hRun, hsc0, hco0, hrows0⟩ | h | ⟨h, _⟩
  · obtain ⟨hnone, hsome⟩ := kernelLoop_spec env cfg (cfg.maxSteps + 1) st0 hRun
      (by omega) (by omega)
    rw [heq] at hok hrow ⊢
    cases hkl : kernelLoop env cfg (cfg.maxSteps + 1) st0 with
    | mk st' opt =>
      rw [hkl] at hok hrow
      dsimp only at hok hrow ⊢
      cases opt with
      | some e =>
          have hfsm' := hsome st' e hkl
          have hF := finishRun_some_row env st' e hfsm' hok hrow
          rw [hdone] at hF
          cases hF
      | none =>
          obtain ⟨hD, hinv⟩ := hnone st' hkl
          have hinv0 : stepInvariant st0 := by
            refine ⟨?_, ?_, ?_⟩
            · rw [hrows0]
              rfl
            · rw [hsc0, hrows0]
              rfl
            · rw [hco0, hrows0]
              rfl
          have hinv' := hinv hinv0
          simp only [finishRun] at hok hrow ⊢
          obtain ⟨hrows_pres, hsr⟩ := teardown_ok_inv env st' none none hok
          rw [hsr] at hrow
          cases hm : st'.store.sessionRow with
          | none =>
              rw [hm] at hrow
              cases hrow
          | some r0 =>
              rw [hm] at hrow
              simp only [Option.map_some'] at hrow
              cases hrow
              rw [hrows_pres]
              dsimp only
              exact ⟨hinv'.2.1, by rw [hinv'.2.2]⟩
  · rw [h] at hok
    cases hok
  · rw [h] at hok
    cases hok

/-- C5, original unrestricted form, is false: a step-limit abort reaches the
final sync with `total_steps = 2` in the session row but only one step row
written (and still returns a `SessionResult`). -/
theorem claim_C5_counterexample :
    (∃ res, (runKernel loopToolEnv cfgOne "task").2 = .ok res) ∧
    (runKernel loopToolEnv cfgOne "task").1.store.sessionRow.map
      (fun r => r.totalSteps) = some 2 ∧
    (runKernel loopToolEnv cfgOne "task").1.store.stepRows.length = 1 ∧
    (2 : Nat) ≠ 1 :=
  ⟨⟨_, rfl⟩, rfl, rfl, by decide⟩

theorem claim_C5_witness :
    (runKernel baseEnv cfgOne "task").2 = .ok
      { status := .DONE, answer := some "The answer is 42.", stepsTaken := 1,
        totalCostUsd := 0, errorType := none, errorMessage := none } ∧
    (runKernel baseEnv cfgOne "task").1.store.sessionRow = some
      { status := .DONE, totalSteps := 1, totalCostUsd := 0,
        errorType := none, errorMsg := none } ∧
    ({ status := .DONE, totalSteps := 1, totalCostUsd := 0,
        errorType := none, errorMsg := none } : SessionRow).status = .DONE ∧
    ({ status := .DONE, totalSteps := 1, totalCostUsd := 0,
        errorType := none, errorMsg := none } : SessionRow).totalSteps =
      (runKernel baseEnv cfgOne "task").1.store.stepRows.length ∧
    ({ status := .DONE, totalSteps := 1, totalCostUsd := 0,
        errorType := none, errorMsg := none } : SessionRow).totalCostUsd =
      round6 (costSum (runKernel baseEnv cfgOne "task").1.store.stepRows) :=
  ⟨by with_unfolding_all rfl, by with_unfolding_all rfl, rfl,
    claim_C5 baseEnv cfgOne "task" (by with_unfolding_all rfl)
      (by with_unfolding_all rfl) rfl⟩

end Aria
